import Mathlib

/-!
Verification of the trading_system repository's admission-control-and-dispatch
subsystem: a shallow embedding in Lean 4 of the Python sources under src/
(core/models.py, core/enums.py, strategy/probability_strategy.py,
engine/risk_manager.py, engine/large_order_monitor.py,
engine/execution_engine.py, strategy/strategy_executor.py), together with
theorems settling the frozen claims about that code.

Modelling conventions used throughout:
- Python `Decimal` values are embedded as `ℚ` (both are exact, ordered,
  arithmetic-closed; every Decimal is a rational).
- Python dicts keyed by strings are embedded as association lists
  `List (String × α)` with `List.lookup`; insertion/replacement is `setAssoc`
  below, which preserves Python's in-place-update-or-append semantics.
- Wall-clock time `datetime.now()` / `time.time()` is passed explicitly as a
  `Time` value carrying the calendar date (`date`, as used by
  `datetime.now().date()`) and the timeline position in seconds (`ts`, as used
  by `time.time()` and timestamp comparisons).
- Exceptions raised by external collaborators (venue gateways) are embedded as
  `Except String` results; the engine's `try/except` blocks become the
  corresponding branches.
- Best-effort durable I/O (JSON files, database writes) is logged-and-swallowed
  by the source and never affects in-memory state or return values; it is
  omitted from the state.
-/

namespace Trading

/-- Association-list update with Python-dict semantics: replace the binding in
place if the key is present, else append it at the end. -/
def setAssoc {α : Type} : List (String × α) → String → α → List (String × α)
  | [], k, v => [(k, v)]
  | (k', v') :: rest, k, v =>
    if k' = k then (k, v) :: rest else (k', v') :: setAssoc rest k v

/-- Calendar time as the source observes it: `date` models
`datetime.now().date()` (an abstract calendar-day index) and `ts` models
`time.time()` / timestamp arithmetic in seconds on the same clock. -/
structure Time where
  date : ℤ
  ts : ℚ
deriving DecidableEq, Repr

/-- OrderSide enum from core/enums.py. -/
inductive OrderSide where
  | buy
  | sell
deriving DecidableEq, Repr

/-- The `.value` attribute of the OrderSide enum. -/
def OrderSide.value : OrderSide → String
  | .buy => "buy"
  | .sell => "sell"

/-- OrderType enum from core/enums.py. -/
inductive OrderType where
  | market
  | limit
deriving DecidableEq, Repr

/-- The `.value` attribute of the OrderType enum. -/
def OrderType.value : OrderType → String
  | .market => "market"
  | .limit => "limit"

/-- Instrument dataclass from core/models.py. -/
structure Instrument where
  symbol : String
  base_asset : String
  quote_asset : String
  min_order_size : ℚ
  tick_size : ℚ
  gateway_name : String
deriving DecidableEq, Repr

/-- Order dataclass from core/models.py. The `status` field is a plain string
because the engine assigns string literals to it (execution_engine.py lines
41, 106, 116, 142), never enum members. -/
structure Order where
  order_id : String
  instrument : Instrument
  side : OrderSide
  type : OrderType
  quantity : ℚ
  price : Option ℚ
  status : String
  filled_qty : ℚ
  gateway_order_id : Option String
  account_id : Option String
  outcome : Option String
deriving DecidableEq, Repr

/-- Position dataclass from core/models.py. -/
structure Position where
  instrument : Instrument
  size : ℚ
  avg_price : ℚ
deriving DecidableEq, Repr

/-- AccountInfo dataclass from core/models.py; `balances` and `positions`
are dicts, embedded as association lists. -/
structure AccountInfo where
  account_id : String
  gateway_name : String
  balances : List (String × ℚ)
  positions : List (String × Position)
deriving DecidableEq, Repr

/-- Python `order.price or Decimal(1)` as used by risk_manager.py and
execution_engine.py: `None` and the falsy value `Decimal(0)` both yield 1. -/
def priceOr1 : Option ℚ → ℚ
  | none => 1
  | some p => if p = 0 then 1 else p

/-! ## ProbabilityStrategy (strategy/probability_strategy.py) -/

/-- ProbabilityStrategy's two stored thresholds
(probability_strategy.py lines 26-27). -/
structure ProbabilityStrategy where
  min_total_probability : ℚ
  safe_total_probability : ℚ
deriving DecidableEq, Repr

/-- Constructor validation of explicit thresholds
(probability_strategy.py lines 20-27): raising `ValueError` is embedded as
`Except.error` with the source's message text. -/
def ProbabilityStrategy.make (minP safeP : ℚ) : Except String ProbabilityStrategy :=
  if minP < 0 ∨ safeP > 100 then
    .error "Probability thresholds must be between 0 and 100"
  else if minP > safeP then
    .error "Minimum probability threshold must be less than safe threshold"
  else
    .ok { min_total_probability := minP, safe_total_probability := safeP }

/-- Engine-default strategy: `ProbabilityStrategy()` falls back to the config
defaults `min_total_probability = 90`, `safe_total_probability = 97`
(probability_strategy.py lines 15-18). -/
def defaultProbabilityStrategy : ProbabilityStrategy :=
  { min_total_probability := 90, safe_total_probability := 97 }

/-- check_probability (probability_strategy.py lines 29-48). The interpolated
numeric values inside the source's f-string messages are abstracted to the
fixed message text; eligibility and presence/absence of a message are
modelled exactly. -/
def ProbabilityStrategy.check_probability (s : ProbabilityStrategy)
    (no_change_prob decrease_25bps_prob : ℚ) : Bool × Option String :=
  if no_change_prob < 0 ∨ decrease_25bps_prob < 0 then
    (false, some "Negative probabilities are not allowed")
  else if no_change_prob > 100 ∨ decrease_25bps_prob > 100 then
    (false, some "Probabilities cannot exceed 100")
  else
    let total_prob := no_change_prob + decrease_25bps_prob
    if total_prob ≥ s.safe_total_probability then
      (true, none)
    else if total_prob ≥ s.min_total_probability then
      (true, some "Total probability below safe threshold, proceed with caution")
    else
      (false, some "Total probability below minimum threshold, requires business judgment")

/-- Result dict of analyze_market_probabilities (the `thresholds` sub-dict,
which merely echoes the two stored fields, is omitted). -/
structure ProbAnalysis where
  no_change_prob : ℚ
  decrease_25bps_prob : ℚ
  total_prob : ℚ
  can_trade : Bool
  message : Option String
deriving DecidableEq, Repr

/-- analyze_market_probabilities (probability_strategy.py lines 50-95):
extracts the `no_change` and `25bps_decrease` keys with default 0 and runs
check_probability. -/
def ProbabilityStrategy.analyze_market_probabilities (s : ProbabilityStrategy)
    (market_data : List (String × ℚ)) : ProbAnalysis :=
  let no_change_prob := (market_data.lookup "no_change").getD 0
  let decrease_25bps_prob := (market_data.lookup "25bps_decrease").getD 0
  let c := s.check_probability no_change_prob decrease_25bps_prob
  { no_change_prob := no_change_prob
    decrease_25bps_prob := decrease_25bps_prob
    total_prob := no_change_prob + decrease_25bps_prob
    can_trade := c.1
    message := c.2 }

/-- Result of get_trade_recommendation: the analysis dict spread together with
the `recommendation` and `confidence` keys. -/
structure TradeRecommendationResult where
  analysis : ProbAnalysis
  recommendation : String
  confidence : String
deriving DecidableEq, Repr

/-- get_trade_recommendation (probability_strategy.py lines 97-116). -/
def ProbabilityStrategy.get_trade_recommendation (s : ProbabilityStrategy)
    (market_data : List (String × ℚ)) : TradeRecommendationResult :=
  let analysis := s.analyze_market_probabilities market_data
  if analysis.can_trade then
    if analysis.total_prob ≥ s.safe_total_probability then
      { analysis := analysis, recommendation := "STRONG_BUY", confidence := "HIGH" }
    else
      { analysis := analysis, recommendation := "CAUTIOUS_BUY", confidence := "MEDIUM" }
  else
    { analysis := analysis, recommendation := "HOLD", confidence := "LOW" }

/-! ## RiskManager (engine/risk_manager.py) -/

/-- The risk configuration dict with its default values
(risk_manager.py lines 30-38); loading/saving the JSON file is external I/O
and the keys are read back with the same defaults at each use. -/
structure RiskConfig where
  max_order_size : ℚ
  daily_trade_limit : ℚ
  max_market_exposure : ℚ
  price_deviation_threshold : ℚ
  max_trades_per_minute : ℕ
  stop_loss_percent : ℚ
  max_position_size : ℚ
deriving DecidableEq, Repr

/-- Default risk configuration (risk_manager.py lines 30-38). -/
def defaultRiskConfig : RiskConfig :=
  { max_order_size := 1000
    daily_trade_limit := 10000
    max_market_exposure := 5000
    price_deviation_threshold := 5 / 100
    max_trades_per_minute := 10
    stop_loss_percent := 5 / 100
    max_position_size := 10000 }

/-- One entry of the trade-history ledger built by record_trade
(risk_manager.py lines 184-192); the isoformat timestamp string is embedded
as the timeline value it denotes. -/
structure TradeRecord where
  order_id : String
  market : String
  side : String
  quantity : ℚ
  price : ℚ
  amount : ℚ
  timestamp : ℚ
deriving DecidableEq, Repr

/-- The mutable state of a RiskManager instance
(risk_manager.py lines 19-26). -/
structure RiskState where
  config : RiskConfig
  trade_history : List TradeRecord
  market_exposure : List (String × ℚ)
  daily_trade_amount : ℚ
  last_reset_date : ℤ
deriving DecidableEq, Repr

namespace RiskManager

/-- A fresh RiskManager constructed at date `d` with the default config
(risk_manager.py lines 9-26). -/
def init (d : ℤ) : RiskState :=
  { config := defaultRiskConfig
    trade_history := []
    market_exposure := []
    daily_trade_amount := 0
    last_reset_date := d }

/-- _reset_daily_limit (risk_manager.py lines 156-161). -/
def reset_daily_limit (st : RiskState) (now : Time) : RiskState :=
  if now.date ≠ st.last_reset_date then
    { st with daily_trade_amount := 0, last_reset_date := now.date }
  else
    st

/-- _check_balance (risk_manager.py lines 100-104): note the consulted
balance key is the literal string "USDC". -/
def check_balance (account : AccountInfo) (order : Order) : Bool :=
  let cost := order.quantity * priceOr1 order.price
  let usdc_balance := (account.balances.lookup "USDC").getD 0
  decide (usdc_balance ≥ cost)

/-- _check_order_size (risk_manager.py lines 106-110). -/
def check_order_size (st : RiskState) (order : Order) : Bool :=
  let order_size := order.quantity * priceOr1 order.price
  decide (order_size ≤ st.config.max_order_size)

/-- _check_daily_limit (risk_manager.py lines 112-116). -/
def check_daily_limit (st : RiskState) (order : Order) : Bool :=
  let order_size := order.quantity * priceOr1 order.price
  decide (st.daily_trade_amount + order_size ≤ st.config.daily_trade_limit)

/-- _check_market_exposure (risk_manager.py lines 118-125). -/
def check_market_exposure (st : RiskState) (order : Order) : Bool :=
  let order_size := order.quantity * priceOr1 order.price
  let current_exposure := (st.market_exposure.lookup order.instrument.symbol).getD 0
  decide (current_exposure + order_size ≤ st.config.max_market_exposure)

/-- _check_trade_frequency (risk_manager.py lines 127-137): count ledger
entries whose timestamp is within the trailing 60 seconds. -/
def check_trade_frequency (st : RiskState) (now : Time) : Bool :=
  let recent_trades := st.trade_history.filter (fun t => decide (t.timestamp ≥ now.ts - 60))
  decide (recent_trades.length < st.config.max_trades_per_minute)

/-- _check_price_deviation (risk_manager.py lines 139-143): a pass-through
stub in the source. -/
def check_price_deviation (_order : Order) : Bool :=
  true

/-- _check_position_size (risk_manager.py lines 145-154). -/
def check_position_size (st : RiskState) (account : AccountInfo) : Bool :=
  let total_position :=
    account.positions.foldl (fun acc p => acc + p.2.size * p.2.avg_price) 0
  decide (total_position ≤ st.config.max_position_size)

/-- check_order (risk_manager.py lines 56-98): reset the daily counter first,
then run the seven checks in order, short-circuiting on the first failure.
The method mutates `self` only through `_reset_daily_limit`, so the updated
state is returned alongside the verdict. -/
def check_order (st : RiskState) (account : AccountInfo) (order : Order)
    (now : Time) : Bool × RiskState :=
  let st := reset_daily_limit st now
  let verdict :=
    check_balance account order
    && check_order_size st order
    && check_daily_limit st order
    && check_market_exposure st order
    && check_trade_frequency st now
    && check_price_deviation order
    && check_position_size st account
  (verdict, st)

/-- record_trade (risk_manager.py lines 163-197). -/
def record_trade (st : RiskState) (order : Order) (executed_price : ℚ)
    (now : Time) : RiskState :=
  let trade_size := order.quantity * executed_price
  let market_symbol := order.instrument.symbol
  let current := (st.market_exposure.lookup market_symbol).getD 0
  let newExposure :=
    if order.side.value = "buy" then current + trade_size else current - trade_size
  let tr : TradeRecord :=
    { order_id := order.order_id
      market := market_symbol
      side := order.side.value
      quantity := order.quantity
      price := executed_price
      amount := trade_size
      timestamp := now.ts }
  let hist := st.trade_history ++ [tr]
  let hist := if hist.length > 1000 then hist.drop 1 else hist
  { st with
    daily_trade_amount := st.daily_trade_amount + trade_size
    market_exposure := setAssoc st.market_exposure market_symbol newExposure
    trade_history := hist }

end RiskManager

/-! ## LargeOrderMonitor (engine/large_order_monitor.py) -/

/-- The dict recorded in the in-memory `large_orders` list
(large_order_monitor.py lines 89-98). Stringification of quantity/price is
abstracted to the values themselves; the Python `if order.get('price')`
truthiness makes a zero price record as None. -/
structure LargeOrderData where
  timestamp : ℚ
  order_id : String
  symbol : String
  side : String
  quantity : ℚ
  price : Option ℚ
  account_id : Option String
  gateway_name : String
deriving DecidableEq, Repr

/-- The `large_order_info` dict the ExecutionEngine passes to the monitor
(execution_engine.py lines 91-99). -/
structure LargeOrderInfo where
  order_id : String
  symbol : String
  side : String
  quantity : ℚ
  price : Option ℚ
  account_id : Option String
  gateway_name : String
deriving DecidableEq, Repr

/-- The in-memory state of a LargeOrderMonitor
(large_order_monitor.py lines 20-27). The durable JSON files, the on-disk
filename index and the database mirror are external best-effort I/O and are
not part of the in-memory decision state. -/
structure LargeOrderMonitor where
  threshold : ℚ
  max_memory_orders : ℕ
  large_orders : List LargeOrderData
deriving DecidableEq, Repr

/-- Constructor validation (large_order_monitor.py lines 10-28): a
non-positive threshold raises `ValueError`, embedded as `Except.error`. -/
def LargeOrderMonitor.make (threshold : ℚ) (max_memory_orders : ℕ) :
    Except String LargeOrderMonitor :=
  if threshold ≤ 0 then
    .error "Threshold must be positive"
  else
    .ok { threshold := threshold, max_memory_orders := max_memory_orders, large_orders := [] }

/-- The monitor the ExecutionEngine constructs: `LargeOrderMonitor()` with
the default threshold 100 and memory cap 1000. -/
def defaultLargeOrderMonitor : LargeOrderMonitor :=
  { threshold := 100, max_memory_orders := 1000, large_orders := [] }

/-- set_threshold (large_order_monitor.py lines 49-59): the raise inside the
try block is caught by the except clause, which returns False leaving the
stored threshold untouched. -/
def LargeOrderMonitor.set_threshold (m : LargeOrderMonitor) (threshold : ℚ) :
    Bool × LargeOrderMonitor :=
  if threshold ≤ 0 then
    (false, m)
  else
    (true, { m with threshold := threshold })

/-- check_large_order (large_order_monitor.py lines 61-77) on the engine's
info dict, whose `quantity` key is always a present Decimal. -/
def LargeOrderMonitor.check_large_order (m : LargeOrderMonitor)
    (info : LargeOrderInfo) : Bool :=
  decide (info.quantity ≥ m.threshold)

/-- record_large_order (large_order_monitor.py lines 79-144): a no-op
returning false for a non-large order, else evict the oldest in-memory entry
past the cap and append; the file, index and database writes are external
best-effort I/O. -/
def LargeOrderMonitor.record_large_order (m : LargeOrderMonitor)
    (info : LargeOrderInfo) (now : Time) : Bool × LargeOrderMonitor :=
  if ¬ m.check_large_order info then
    (false, m)
  else
    let order_data : LargeOrderData :=
      { timestamp := now.ts
        order_id := info.order_id
        symbol := info.symbol
        side := info.side
        quantity := info.quantity
        price := info.price.bind (fun p => if p = 0 then none else some p)
        account_id := info.account_id
        gateway_name := info.gateway_name }
    let mem :=
      if m.large_orders.length ≥ m.max_memory_orders then
        m.large_orders.drop 1
      else
        m.large_orders
    (true, { m with large_orders := mem ++ [order_data] })

/-! ## ExecutionEngine (engine/execution_engine.py) -/

/-- The result dict of LiquidityAnalyzer.analyze_liquidity as consumed by the
engine (execution_engine.py lines 79-88 read `liquidity_rating` and
`message`). -/
structure LiquidityAnalysisResult where
  liquidity_rating : String
  slippage_estimate : ℚ
  confidence : String
  message : String
deriving DecidableEq, Repr

/-- Interface of engine/liquidity_analyzer.py as the engine uses it:
`analyze_liquidity(symbol, target_size)` returns a result and may update the
analyzer's memo cache, and `add_historical_data(symbol, timestamp, api_price,
executed_price, size)` appends a sample. The analyzer's internals compute
float/pandas statistics; the engine-level theorems below are proved for every
deterministic implementation of this interface, hence in particular for the
source's. `L` is the analyzer's private state type. -/
structure LiquidityModel (L : Type) where
  analyze_liquidity : L → String → ℚ → L × LiquidityAnalysisResult
  add_historical_data : L → String → ℚ → ℚ → ℚ → ℚ → L

/-- One entry of the per-step audit trail (the dicts appended to
`result['steps']` in execution_engine.py). Absent dict keys are `none`. -/
structure Step where
  step : String
  status : String
  message : Option String
  recorded : Option Bool
  gateway_order_id : Option String
deriving DecidableEq, Repr

/-- A step dict carrying only `step` and `status`. -/
def mkStep (s st : String) : Step :=
  { step := s, status := st, message := none, recorded := none, gateway_order_id := none }

/-- A step dict carrying `step`, `status` and `message`. -/
def mkStepMsg (s st msg : String) : Step :=
  { step := s, status := st, message := some msg, recorded := none, gateway_order_id := none }

/-- The result dict returned by submit_order
(execution_engine.py lines 30-35 and subsequent mutations). -/
structure SubmitResult where
  order_id : String
  status : String
  message : String
  steps : List Step
  gateway_order_id : Option String
deriving DecidableEq, Repr

/-- One entry of the engine's in-memory `_order_history` ring
(execution_engine.py lines 235-247). String conversions of quantity/price are
abstracted to the values; `str(order.price) if order.price else None` makes a
zero price record as None. -/
structure HistoryEntry where
  timestamp : ℚ
  order_id : String
  instrument : String
  side : String
  type : String
  quantity : ℚ
  price : Option ℚ
  account_id : Option String
  status : String
  gateway_order_id : Option String
  execution_result : SubmitResult
deriving DecidableEq, Repr

/-- The engine's collaborators fixed at construction
(execution_engine.py lines 17-26): the venue-adapter map (each adapter's
`send_order` either returns a venue order id or raises, embedded as
`Except String String`), the account store (`AccountManager.accounts` dict;
`get_account` raises KeyError on a missing id), the probability strategy and
the liquidity analyzer. -/
structure ExecutionEnv (L : Type) where
  gateways : List (String × (Order → Except String String))
  accounts : List (String × AccountInfo)
  probability_strategy : ProbabilityStrategy
  liquidity : LiquidityModel L

/-- The engine's mutable state: the risk ledger, the liquidity analyzer's
private state, the large-order monitor and the order-history ring. -/
structure EngineState (L : Type) where
  risk : RiskState
  liq : L
  monitor : LargeOrderMonitor
  order_history : List HistoryEntry

/-- Result dict of _validate_order (execution_engine.py lines 207-230). -/
structure ValidationResult where
  valid : Bool
  message : String
deriving DecidableEq, Repr

/-- _validate_order (execution_engine.py lines 207-230). The `not order`,
`not order.instrument`, `not order.side` and `not order.type` guards can
never fire on a well-typed Order (dataclass instances and enum members are
always truthy), so the live checks are: empty order id, non-positive
quantity, and gateway membership. -/
def validate_order {L : Type} (env : ExecutionEnv L) (order : Order) : ValidationResult :=
  if order.order_id = "" then
    { valid := false, message := "订单ID是必需的" }
  else if order.quantity ≤ 0 then
    { valid := false, message := "订单数量必须为正数" }
  else if (env.gateways.lookup order.instrument.gateway_name).isNone then
    { valid := false, message := "网关 " ++ order.instrument.gateway_name ++ " 不可用" }
  else
    { valid := true, message := "订单验证成功" }

/-- The probability gate of submit_order step 2
(execution_engine.py lines 51-64): `if market_probabilities:` is Python
truthiness, so both `None` and an empty dict skip the gate; otherwise the
strategy's analysis decides. -/
def probability_gate (s : ProbabilityStrategy)
    (market_probabilities : Option (List (String × ℚ))) : Option ProbAnalysis :=
  match market_probabilities with
  | none => none
  | some md => if md.isEmpty then none else some (s.analyze_market_probabilities md)

/-- _record_order_history (execution_engine.py lines 232-279): evict the
oldest entry past the 10000 cap and append; the database save is external
best-effort I/O. -/
def record_order_history (history : List HistoryEntry) (order : Order)
    (result : SubmitResult) (now : Time) : List HistoryEntry :=
  let entry : HistoryEntry :=
    { timestamp := now.ts
      order_id := order.order_id
      instrument := order.instrument.symbol
      side := order.side.value
      type := order.type.value
      quantity := order.quantity
      price := order.price.bind (fun p => if p = 0 then none else some p)
      account_id := order.account_id
      status := order.status
      gateway_order_id := order.gateway_order_id
      execution_result := result }
  let h := if history.length ≥ 10000 then history.drop 1 else history
  h ++ [entry]

/-- submit_order from step 3 on (execution_engine.py lines 66-160): risk
check, liquidity analysis, large-order recording, gateway dispatch and the
post-dispatch bookkeeping, shared by the probability-gated and ungated paths
of `submit_order` below. `steps2` is the audit trail accumulated so far. The
surrounding `try/except` of the source converts a raising step (a missing
account in the store, or a gateway `send_order` exception) into the `error`
result with `order.status = 'rejected'` (line 142). The detail text of a
KeyError from the account store is abstracted to "KeyError"; a gateway
exception message is kept exact. -/
def submit_order_after_probability {L : Type} (env : ExecutionEnv L)
    (st : EngineState L) (order : Order) (steps2 : List Step) (now : Time) :
    EngineState L × Order × SubmitResult :=
  match order.account_id.bind (fun a => env.accounts.lookup a) with
  | none =>
    (st, { order with status := "rejected" },
      { order_id := order.order_id, status := "error",
        message := "意外错误: KeyError",
        steps := steps2 ++ [mkStepMsg "execution" "error" "KeyError"],
        gateway_order_id := none })
  | some account =>
    let rc := RiskManager.check_order st.risk account order now
    let st := { st with risk := rc.2 }
    if ¬ rc.1 then
      (st, { order with status := "rejected" },
        { order_id := order.order_id, status := "rejected",
          message := "风险检查失败",
          steps := steps2 ++ [mkStepMsg "risk_check" "failed" "资金不足或超出风险限制"],
          gateway_order_id := none })
    else
      let steps3 := steps2 ++ [mkStep "risk_check" "success"]
      let liqr := env.liquidity.analyze_liquidity st.liq order.instrument.symbol order.quantity
      let st := { st with liq := liqr.1 }
      let steps4 := steps3 ++
        (if liqr.2.liquidity_rating = "LOW" then
          [mkStepMsg "liquidity_analysis" "warning" liqr.2.message]
        else
          [mkStepMsg "liquidity_analysis" "success" liqr.2.message])
      let info : LargeOrderInfo :=
        { order_id := order.order_id
          symbol := order.instrument.symbol
          side := order.side.value
          quantity := order.quantity
          price := order.price
          account_id := order.account_id
          gateway_name := order.instrument.gateway_name }
      let lr := st.monitor.record_large_order info now
      let st := { st with monitor := lr.2 }
      let steps5 := steps4 ++
        [{ step := "large_order_check", status := "success", message := none,
           recorded := some lr.1, gateway_order_id := none }]
      match env.gateways.lookup order.instrument.gateway_name with
      | none =>
        (st, { order with status := "rejected" },
          { order_id := order.order_id, status := "rejected",
            message := "网关 " ++ order.instrument.gateway_name ++ " 不可用",
            steps := steps5 ++ [mkStepMsg "execution" "failed"
              ("网关 " ++ order.instrument.gateway_name ++ " 不可用")],
            gateway_order_id := none })
      | some gateway =>
        match gateway order with
        | .error e =>
          (st, { order with status := "rejected" },
            { order_id := order.order_id, status := "error",
              message := "意外错误: " ++ e,
              steps := steps5 ++ [mkStepMsg "execution" "error" e],
              gateway_order_id := none })
        | .ok gw_order_id =>
          let order := { order with gateway_order_id := some gw_order_id,
                                    status := "submitted" }
          let result : SubmitResult :=
            { order_id := order.order_id, status := "submitted",
              message := "订单提交成功",
              steps := steps5 ++
                [{ step := "execution", status := "success", message := none,
                   recorded := none, gateway_order_id := some gw_order_id }],
              gateway_order_id := some gw_order_id }
          let executed_price := priceOr1 order.price
          let liq2 := env.liquidity.add_historical_data st.liq
            order.instrument.symbol now.ts executed_price executed_price order.quantity
          let risk2 := RiskManager.record_trade st.risk order executed_price now
          let hist2 := record_order_history st.order_history order result now
          ({ risk := risk2, liq := liq2, monitor := st.monitor,
             order_history := hist2 }, order, result)

/-- submit_order (execution_engine.py lines 28-162): structural validation,
then the probability gate, then the rest of the pipeline via
`submit_order_after_probability`. Returns the updated engine state, the
mutated order and the result dict. -/
def submit_order {L : Type} (env : ExecutionEnv L) (st : EngineState L)
    (order : Order) (market_probabilities : Option (List (String × ℚ)))
    (now : Time) : EngineState L × Order × SubmitResult :=
  let v := validate_order env order
  if ¬ v.valid then
    (st, { order with status := "rejected" },
      { order_id := order.order_id, status := "rejected", message := v.message,
        steps := [mkStepMsg "validation" "failed" v.message],
        gateway_order_id := none })
  else
    let steps1 := [mkStep "validation" "success"]
    match probability_gate env.probability_strategy market_probabilities with
    | some pa =>
      if ¬ pa.can_trade then
        (st, { order with status := "rejected" },
          { order_id := order.order_id, status := "rejected",
            message := pa.message.getD "", steps := steps1 ++
              [mkStepMsg "probability_check" "failed" (pa.message.getD "")],
            gateway_order_id := none })
      else
        let steps2 := steps1 ++
          (match pa.message with
           | some msg => [mkStepMsg "probability_check" "warning" msg]
           | none => [mkStep "probability_check" "success"])
        submit_order_after_probability env st order steps2 now
    | none => submit_order_after_probability env st order steps1 now

/-- The aggregate dict returned by submit_orders_batch
(execution_engine.py lines 164-205). -/
structure BatchResult where
  total : ℕ
  submitted : ℕ
  rejected : ℕ
  errors : ℕ
  details : List SubmitResult
deriving DecidableEq, Repr

/-- The sequential loop body of submit_orders_batch: submit each order
through the full pipeline, threading the engine state, and collect the
per-order result dicts in input order. The per-iteration `try/except` of the
source never fires because `submit_order` is total here (its own handler
already converts raising steps into `error` results). -/
def submit_batch_details {L : Type} (env : ExecutionEnv L) :
    EngineState L → List (Order × Option (List (String × ℚ))) → Time →
    EngineState L × List SubmitResult
  | st, [], _ => (st, [])
  | st, (order, mp) :: rest, now =>
    let r := submit_order env st order mp now
    let tail := submit_batch_details env r.1 rest now
    (tail.1, r.2.2 :: tail.2)

/-- submit_orders_batch (execution_engine.py lines 164-205): the counters are
incremented once per processed order according to its result status
(`submitted`, `rejected`, anything else counts as an error), which equals
counting over the collected details. -/
def submit_orders_batch {L : Type} (env : ExecutionEnv L) (st : EngineState L)
    (orders : List (Order × Option (List (String × ℚ)))) (now : Time) :
    EngineState L × BatchResult :=
  let d := submit_batch_details env st orders now
  (d.1,
    { total := orders.length
      submitted := d.2.countP (fun r => r.status = "submitted")
      rejected := d.2.countP (fun r => r.status = "rejected")
      errors := d.2.countP (fun r => r.status ≠ "submitted" ∧ r.status ≠ "rejected")
      details := d.2 })

/-! ## StrategyExecutor (strategy/strategy_executor.py) -/

/-- The StrategyExecutor's configuration fields relevant to order selection
and event handling (strategy_executor.py lines 29-69). -/
structure ExecutorConfig where
  min_confidence : String
  max_orders_per_batch : ℕ
  event_subscription_enabled : Bool
  subscribed_events : List String
  event_min_confidence : String
  max_orders_per_event : ℕ
  order_size_multiplier : ℚ
  cooldown_period : ℚ
deriving DecidableEq, Repr

/-- The `confidence_levels` dict lookup with an explicit default
(strategy_executor.py lines 65-69; `.get(key, default)` at lines 356 and
704). -/
def confidence_level (c : String) (d : ℕ) : ℕ :=
  if c = "LOW" then 1 else if c = "MEDIUM" then 2 else if c = "HIGH" then 3 else d

/-- A trade-recommendation dict as produced by the Polymarket strategy and
consumed by the executor; every key is read with `.get`, so each field is
optional. -/
structure Recommendation where
  market_id : Option String
  outcome : Option String
  signal : Option String
  confidence : Option String
  order_size : Option ℚ
  best_bid : Option ℚ
  best_ask : Option ℚ
deriving DecidableEq, Repr

/-- _is_valid_recommendation (strategy_executor.py lines 338-378): non-HOLD
signal, confidence at least the configured minimum (itself looked up with
default level 2), positive size, and a truthy market id. -/
def is_valid_recommendation (cfg : ExecutorConfig) (r : Recommendation) : Bool :=
  if r.signal.getD "HOLD" = "HOLD" then
    false
  else if confidence_level (r.confidence.getD "LOW") 0 < confidence_level cfg.min_confidence 2 then
    false
  else if r.order_size.getD 0 ≤ 0 then
    false
  else
    match r.market_id with
    | none => false
    | some m => ¬ (m = "")

/-- The market-info dict returned by PolymarketGateway.get_market as the
executor reads it (`outcomes` list and `question`). -/
structure MarketInfo where
  outcomes : List String
  question : Option String
deriving DecidableEq, Repr

/-- _create_order (strategy_executor.py lines 422-509). Every failure path
returns None. The final `Order(...)` construction at lines 488-498 passes a
`timestamp` keyword argument, but the Order dataclass in core/models.py
(lines 16-29) defines no such field, so the dataclass `__init__` raises
`TypeError`; the surrounding `except` at lines 502-504 logs the error and
returns None. Hence the function returns None on every input, which this
embedding records faithfully after walking the earlier failure branches. -/
def create_order (get_market : String → Option MarketInfo)
    (r : Recommendation) (_now : Time) : Option Order :=
  match r.market_id with
  | none => none
  | some market_id =>
    if market_id = "" then
      none
    else
      match get_market market_id with
      | none => none
      | some _ => none

/-- _create_order_from_event (strategy_executor.py lines 716-803): the same
structure as _create_order, including the unsupported `timestamp` keyword at
lines 781-792 that makes the Order construction raise `TypeError`, so every
input yields None. -/
def create_order_from_event (get_market : String → Option MarketInfo)
    (market_id : Option String) (_now : Time) : Option Order :=
  match market_id with
  | none => none
  | some m =>
    if m = "" then
      none
    else
      match get_market m with
      | none => none
      | some _ => none

/-- The selection core of execute_m_choose_n_strategy
(strategy_executor.py lines 248-265): filter to valid recommendations, and
when more than `n` are valid, stable-sort them descending by confidence tier
and keep the first `n`; otherwise keep them all in input order. -/
def m_choose_n_selected (cfg : ExecutorConfig) (recs : List Recommendation)
    (n : ℤ) : List Recommendation :=
  let valid := recs.filter (is_valid_recommendation cfg)
  if (valid.length : ℤ) > n then
    (valid.mergeSort (fun a b =>
      decide (confidence_level (b.confidence.getD "LOW") 0 ≤
        confidence_level (a.confidence.getD "LOW") 0))).take n.toNat
  else
    valid

/-- The result dict of execute_m_choose_n_strategy
(strategy_executor.py lines 216-237 and 296-311). -/
structure MChooseNResult where
  status : String
  message : Option String
  market_id : Option String
  m : ℕ
  n : ℤ
  selected_count : ℕ
  selected_outcomes : List (Option String)
deriving DecidableEq, Repr

/-- execute_m_choose_n_strategy (strategy_executor.py lines 200-311).
`market_info` stands for `polymarket_gateway.get_market(market_id)` and
`recs` for `get_trade_recommendations_for_all_outcomes(market_id)`, both
external data fetches. Orders are then built with `_create_order` (which
always returns None, see above) and, when any exist, submitted through the
engine; the threaded engine state is returned alongside the result dict. -/
def execute_m_choose_n_strategy {L : Type} (cfg : ExecutorConfig)
    (env : ExecutionEnv L) (get_market : String → Option MarketInfo)
    (st : EngineState L) (market_id : String) (recs : List Recommendation)
    (n : ℤ) (now : Time) : EngineState L × MChooseNResult :=
  match get_market market_id with
  | none =>
    (st, { status := "error", message := some ("获取市场信息失败: " ++ market_id),
           market_id := none, m := 0, n := 0, selected_count := 0,
           selected_outcomes := [] })
  | some market_info =>
    let m := market_info.outcomes.length
    if (m : ℤ) < n then
      (st, { status := "error", message := some "N 大于结果选项总数 M",
             market_id := none, m := 0, n := 0, selected_count := 0,
             selected_outcomes := [] })
    else if n ≤ 0 then
      (st, { status := "error", message := some "N 必须大于0",
             market_id := none, m := 0, n := 0, selected_count := 0,
             selected_outcomes := [] })
    else
      let selected := m_choose_n_selected cfg recs n
      let orders := (selected.filterMap (fun r => create_order get_market r now)).map
        (fun o => (o, (none : Option (List (String × ℚ)))))
      let st' := if orders.isEmpty then st else (submit_orders_batch env st orders now).1
      (st', { status := "success", message := none, market_id := some market_id,
              m := m, n := n, selected_count := selected.length,
              selected_outcomes := selected.map (fun r => r.outcome) })

/-- One per-market entry of the strategy's event-trigger result list
(strategy_executor.py lines 586-617 read `error`, `signal`, `market_id` and
`order_size` from it with `.get`). -/
structure EventMarketResult where
  market_id : Option String
  error : Option String
  signal_dict : List (String × String)
  best_bid : Option ℚ
  best_ask : Option ℚ
  order_size : Option ℚ
deriving DecidableEq, Repr

/-- Signal lookup on an event result's `signal` sub-dict
(`signal.get('signal', 'HOLD')` and `signal.get('confidence', 'LOW')`). -/
def signalGet (s : List (String × String)) (k d : String) : String :=
  (s.lookup k).getD d

/-- The dict returned by PolymarketStrategy.handle_event_trigger as the
executor reads it. -/
structure EventTriggerResult where
  event_name : String
  status : String
  reason : Option String
  results : List EventMarketResult
deriving DecidableEq, Repr

/-- The dict returned by StrategyExecutor.handle_event
(strategy_executor.py lines 538-653): the spread of the trigger result's
keys plus the order fields added at lines 638-643. -/
structure HandleEventResult where
  event_name : String
  status : String
  reason : Option String
  results : List EventMarketResult
  order_status : Option String
  order_count : Option ℕ
  order_result : Option BatchResult
deriving DecidableEq, Repr

/-- The StrategyExecutor's mutable state relevant to event handling: the
per-event cooldown-expiry map (strategy_executor.py line 49) and the engine
state mutated through batch submission. -/
structure ExecutorState (L : Type) where
  event_cooldowns : List (String × ℚ)
  engine : EngineState L

/-- _is_in_cooldown (strategy_executor.py lines 655-670): the stored expiry
(default 0) is still ahead of the current time. -/
def is_in_cooldown (cooldowns : List (String × ℚ)) (event_name : String)
    (now : Time) : Bool :=
  decide (now.ts < (cooldowns.lookup event_name).getD 0)

/-- _set_cooldown (strategy_executor.py lines 672-684). -/
def set_cooldown (cfg : ExecutorConfig) (cooldowns : List (String × ℚ))
    (event_name : String) (now : Time) : List (String × ℚ) :=
  setAssoc cooldowns event_name (now.ts + cfg.cooldown_period)

/-- _is_valid_event_signal (strategy_executor.py lines 686-714). -/
def is_valid_event_signal (cfg : ExecutorConfig) (signal : List (String × String))
    (order_size : ℚ) : Bool :=
  if signalGet signal "signal" "HOLD" = "HOLD" then
    false
  else if confidence_level (signalGet signal "confidence" "LOW") 0 <
      confidence_level cfg.event_min_confidence 2 then
    false
  else if order_size ≤ 0 then
    false
  else
    true

/-- The order-building loop of handle_event
(strategy_executor.py lines 585-622): skip errored results and invalid
signals (`continue`), stop once `max_orders_per_event` orders exist
(`break`), and append the orders `_create_order_from_event` yields. -/
def build_event_orders (cfg : ExecutorConfig)
    (get_market : String → Option MarketInfo) (now : Time) :
    List EventMarketResult → List Order → List Order
  | [], acc => acc
  | r :: rest, acc =>
    if r.error.isSome then
      build_event_orders cfg get_market now rest acc
    else
      let order_size := r.order_size.getD 0 * cfg.order_size_multiplier
      if ¬ is_valid_event_signal cfg r.signal_dict order_size then
        build_event_orders cfg get_market now rest acc
      else if cfg.max_orders_per_event ≤ acc.length then
        acc
      else
        match create_order_from_event get_market r.market_id now with
        | some o => build_event_orders cfg get_market now rest (acc ++ [o])
        | none => build_event_orders cfg get_market now rest acc

/-- handle_event (strategy_executor.py lines 528-653). `trigger` stands for
`polymarket_strategy.handle_event_trigger(event_name, event_data)`, an
external market-data-driven computation. Returns the updated executor state
and the result dict. -/
def handle_event {L : Type} (cfg : ExecutorConfig) (env : ExecutionEnv L)
    (get_market : String → Option MarketInfo)
    (trigger : String → EventTriggerResult) (st : ExecutorState L)
    (event_name : String) (now : Time) : ExecutorState L × HandleEventResult :=
  if ¬ cfg.event_subscription_enabled then
    (st, { event_name := event_name, status := "disabled",
           reason := some "事件订阅已禁用", results := [],
           order_status := none, order_count := none, order_result := none })
  else if ¬ (cfg.subscribed_events.contains event_name) then
    (st, { event_name := event_name, status := "not_subscribed",
           reason := some "事件不在订阅列表中", results := [],
           order_status := none, order_count := none, order_result := none })
  else if is_in_cooldown st.event_cooldowns event_name now then
    (st, { event_name := event_name, status := "cooldown",
           reason := some "事件仍在冷却期中", results := [],
           order_status := none, order_count := none, order_result := none })
  else
    let event_result := trigger event_name
    if event_result.status ≠ "processed" then
      (st, { event_name := event_result.event_name, status := event_result.status,
             reason := event_result.reason, results := event_result.results,
             order_status := none, order_count := none, order_result := none })
    else if event_result.results.isEmpty then
      (st, { event_name := event_result.event_name, status := event_result.status,
             reason := event_result.reason, results := event_result.results,
             order_status := some "no_orders", order_count := none,
             order_result := none })
    else
      let orders := build_event_orders cfg get_market now event_result.results []
      if orders.isEmpty then
        (st, { event_name := event_result.event_name, status := event_result.status,
               reason := event_result.reason, results := event_result.results,
               order_status := some "no_orders", order_count := some 0,
               order_result := none })
      else
        let b := submit_orders_batch env st.engine
          (orders.map (fun o => (o, (none : Option (List (String × ℚ)))))) now
        let cooldowns := set_cooldown cfg st.event_cooldowns event_name now
        ({ event_cooldowns := cooldowns, engine := b.1 },
         { event_name := event_result.event_name, status := event_result.status,
           reason := event_result.reason, results := event_result.results,
           order_status := some "submitted", order_count := some orders.length,
           order_result := some b.2 })

/-! ## Concrete fixtures used by witnesses and counterexamples -/

/-- Following the claim's words for C5 (spec §4.1 check 1): a balance check
that consults the balance of the order's instrument's quote asset. Stated
only for comparison with the source's `RiskManager.check_balance`, which
hardcodes the "USDC" key. -/
def claimed_quote_asset_balance_check (account : AccountInfo) (order : Order) : Bool :=
  decide ((account.balances.lookup order.instrument.quote_asset).getD 0 ≥
    order.quantity * priceOr1 order.price)

/-- An instrument quoted in USDT, for the C5 counterexample. -/
def usdtInstrument : Instrument :=
  { symbol := "FOO-USDT", base_asset := "FOO", quote_asset := "USDT",
    min_order_size := 1, tick_size := 1 / 100, gateway_name := "binance" }

/-- An account holding only USDT, for the C5 counterexample. -/
def usdtAccount : AccountInfo :=
  { account_id := "acct1", gateway_name := "binance",
    balances := [("USDT", 1000)], positions := [] }

/-- A small order on the USDT-quoted instrument (cost 50), for the C5
counterexample. -/
def usdtOrder : Order :=
  { order_id := "o1", instrument := usdtInstrument, side := .buy, type := .limit,
    quantity := 10, price := some 5, status := "pending", filled_qty := 0,
    gateway_order_id := none, account_id := some "acct1", outcome := none }

/-- A risk state whose last reset happened on day 0 with a non-zero daily
accumulator, for the C9 counterexample. -/
def rolloverRiskState : RiskState :=
  { config := defaultRiskConfig, trade_history := [],
    market_exposure := [("m", 7)], daily_trade_amount := 5, last_reset_date := 0 }

/-- A trivial instance of the liquidity-analyzer interface (state `Unit`),
used to instantiate the engine-level theorems at concrete inputs. -/
def trivialLiquidity : LiquidityModel Unit :=
  { analyze_liquidity := fun _ _ _ =>
      ((), { liquidity_rating := "MEDIUM", slippage_estimate := 0,
             confidence := "HIGH", message := "ok" })
    add_historical_data := fun _ _ _ _ _ _ => () }

/-- A venue adapter whose send_order always raises, embedded as an error
result with the exception text "boom". -/
def errGateway : Order → Except String String :=
  fun _ => .error "boom"

/-- A venue adapter whose send_order always succeeds with a fixed venue
order id. -/
def okGateway : Order → Except String String :=
  fun _ => .ok "gw123"

/-- An account holding plenty of USDC, so every risk check passes for the
small test order. -/
def richAccount : AccountInfo :=
  { account_id := "acct1", gateway_name := "binance",
    balances := [("USDC", 1000)], positions := [] }

/-- Engine environment whose only gateway raises on dispatch, for the C1
counterexample and witness. -/
def c1Env : ExecutionEnv Unit :=
  { gateways := [("binance", errGateway)]
    accounts := [("acct1", richAccount)]
    probability_strategy := defaultProbabilityStrategy
    liquidity := trivialLiquidity }

/-- Engine environment with a succeeding gateway, for the C10 counterexample
and the batch witness. -/
def okEnv : ExecutionEnv Unit :=
  { gateways := [("binance", okGateway)]
    accounts := [("acct1", richAccount)]
    probability_strategy := defaultProbabilityStrategy
    liquidity := trivialLiquidity }

/-- Engine environment with a succeeding gateway but an account too poor to
pass the balance check, for the C10 counterexample. -/
def poorEnv : ExecutionEnv Unit :=
  { gateways := [("binance", okGateway)]
    accounts := [("acct1", usdtAccount)]
    probability_strategy := defaultProbabilityStrategy
    liquidity := trivialLiquidity }

/-- A fresh engine state whose risk manager was constructed on day 0. -/
def freshEngineState : EngineState Unit :=
  { risk := RiskManager.init 0, liq := (), monitor := defaultLargeOrderMonitor,
    order_history := [] }

/-- An engine state carrying the day-0 rollover risk state, for the C10
counterexample. -/
def rolloverEngineState : EngineState Unit :=
  { risk := rolloverRiskState, liq := (), monitor := defaultLargeOrderMonitor,
    order_history := [] }

/-- A structurally malformed order (non-positive quantity), for the C3
witness. -/
def malformedOrder : Order :=
  { order_id := "bad", instrument := usdtInstrument, side := .buy, type := .limit,
    quantity := 0, price := some 5, status := "pending", filled_qty := 0,
    gateway_order_id := none, account_id := some "acct1", outcome := none }

/-- A placeholder result dict used only as the `List.getD` default when a
theorem indexes into a batch's details. -/
def dummySubmitResult : SubmitResult :=
  { order_id := "", status := "", message := "", steps := [], gateway_order_id := none }

/-- Executor configuration used by the C4 and C8 concrete theorems,
mirroring the source defaults (strategy_executor.py lines 33-46). -/
def testExecutorConfig : ExecutorConfig :=
  { min_confidence := "MEDIUM", max_orders_per_batch := 10,
    event_subscription_enabled := true, subscribed_events := ["cpi"],
    event_min_confidence := "MEDIUM", max_orders_per_event := 5,
    order_size_multiplier := 1, cooldown_period := 60 }

/-- A market with four outcomes, for the C4 counterexample and witness. -/
def fourOutcomeMarket : String → Option MarketInfo :=
  fun m => if m = "m1" then
    some { outcomes := ["a", "b", "c", "d"], question := some "q" }
  else
    none

/-- A recommendation constructor for concrete M-choose-N tests. -/
def mkRec (conf : String) (outcome : String) : Recommendation :=
  { market_id := some "m1", outcome := some outcome, signal := some "BUY",
    confidence := some conf, order_size := some 10, best_bid := none,
    best_ask := none }

/-- An event-trigger oracle returning one processed market result carrying a
valid BUY/HIGH signal of size 10, for the C8 theorem. -/
def cpiTrigger : String → EventTriggerResult :=
  fun e =>
    { event_name := e, status := "processed", reason := none,
      results := [{ market_id := some "m1", error := none,
                    signal_dict := [("signal", "BUY"), ("confidence", "HIGH"),
                                    ("outcome", "a")],
                    best_bid := none, best_ask := none, order_size := some 10 }] }

/-- A fresh executor state (no cooldowns), for the C8 theorem. -/
def freshExecutorState : ExecutorState Unit :=
  { event_cooldowns := [], engine := freshEngineState }

/-! ## Theorems -/

/-- Helper: lookup of the two probability keys in the standard market dict. -/
theorem lookup_no_change (p1 p2 : ℚ) :
    (([("no_change", p1), ("25bps_decrease", p2)] : List (String × ℚ)).lookup
      "no_change") = some p1 := rfl

/-- Helper: lookup of the decrease key in the standard market dict. -/
theorem lookup_decrease (p1 p2 : ℚ) :
    (([("no_change", p1), ("25bps_decrease", p2)] : List (String × ℚ)).lookup
      "25bps_decrease") = some p2 := rfl

/-- Claim C2: with the default thresholds (90/97), check_probability on
probabilities p1, p2 each in [0,100] is eligible with no warning iff
p1 + p2 ≥ 97, eligible with a caution message iff 90 ≤ p1 + p2 < 97, and
ineligible iff p1 + p2 < 90; any negative or above-100 input is rejected as
ineligible; and get_trade_recommendation maps those three regions to
STRONG_BUY/HIGH, CAUTIOUS_BUY/MEDIUM and HOLD/LOW respectively. -/
theorem probability_strategy_default_thresholds (p1 p2 : ℚ) :
    ((p1 < 0 ∨ p2 < 0 ∨ 100 < p1 ∨ 100 < p2) →
      (defaultProbabilityStrategy.check_probability p1 p2).1 = false) ∧
    (0 ≤ p1 → p1 ≤ 100 → 0 ≤ p2 → p2 ≤ 100 →
      (defaultProbabilityStrategy.check_probability p1 p2 = (true, none) ↔
        97 ≤ p1 + p2) ∧
      ((defaultProbabilityStrategy.check_probability p1 p2).1 = true ∧
        ((defaultProbabilityStrategy.check_probability p1 p2).2).isSome = true ↔
        90 ≤ p1 + p2 ∧ p1 + p2 < 97) ∧
      ((defaultProbabilityStrategy.check_probability p1 p2).1 = false ↔
        p1 + p2 < 90) ∧
      ((defaultProbabilityStrategy.get_trade_recommendation
          [("no_change", p1), ("25bps_decrease", p2)]).recommendation = "STRONG_BUY" ∧
        (defaultProbabilityStrategy.get_trade_recommendation
          [("no_change", p1), ("25bps_decrease", p2)]).confidence = "HIGH" ↔
        97 ≤ p1 + p2) ∧
      ((defaultProbabilityStrategy.get_trade_recommendation
          [("no_change", p1), ("25bps_decrease", p2)]).recommendation = "CAUTIOUS_BUY" ∧
        (defaultProbabilityStrategy.get_trade_recommendation
          [("no_change", p1), ("25bps_decrease", p2)]).confidence = "MEDIUM" ↔
        (90 ≤ p1 + p2 ∧ p1 + p2 < 97)) ∧
      ((defaultProbabilityStrategy.get_trade_recommendation
          [("no_change", p1), ("25bps_decrease", p2)]).recommendation = "HOLD" ∧
        (defaultProbabilityStrategy.get_trade_recommendation
          [("no_change", p1), ("25bps_decrease", p2)]).confidence = "LOW" ↔
        p1 + p2 < 90)) := by
  constructor
  · intro h
    unfold ProbabilityStrategy.check_probability
    split_ifs with h1 h2
    · rfl
    · rfl
    · push_neg at h1 h2
      rcases h with h | h | h | h <;> [exact absurd h (not_lt.mpr h1.1);
        exact absurd h (not_lt.mpr h1.2); exact absurd h (not_lt.mpr h2.1);
        exact absurd h (not_lt.mpr h2.2)]
  · intro hp1 hp1' hp2 hp2'
    have hcheck : defaultProbabilityStrategy.check_probability p1 p2 =
        (if 97 ≤ p1 + p2 then ((true : Bool), (none : Option String))
         else if 90 ≤ p1 + p2 then
          (true, some "Total probability below safe threshold, proceed with caution")
         else
          (false, some "Total probability below minimum threshold, requires business judgment")) := by
      unfold ProbabilityStrategy.check_probability defaultProbabilityStrategy
      have notneg : ¬ (p1 < 0 ∨ p2 < 0) := by push_neg; exact ⟨hp1, hp2⟩
      have notbig : ¬ (p1 > 100 ∨ p2 > 100) := by push_neg; exact ⟨hp1', hp2'⟩
      simp only [notneg, notbig, if_false, ge_iff_le]
    have hana : defaultProbabilityStrategy.analyze_market_probabilities
        [("no_change", p1), ("25bps_decrease", p2)] =
        { no_change_prob := p1, decrease_25bps_prob := p2, total_prob := p1 + p2,
          can_trade := (defaultProbabilityStrategy.check_probability p1 p2).1,
          message := (defaultProbabilityStrategy.check_probability p1 p2).2 } := by
      unfold ProbabilityStrategy.analyze_market_probabilities
      rw [lookup_no_change, lookup_decrease]
      rfl
    by_cases h97 : 97 ≤ p1 + p2
    · have hc : defaultProbabilityStrategy.check_probability p1 p2 = (true, none) := by
        rw [hcheck, if_pos h97]
      have hrec : defaultProbabilityStrategy.get_trade_recommendation
          [("no_change", p1), ("25bps_decrease", p2)] =
          { analysis := defaultProbabilityStrategy.analyze_market_probabilities
              [("no_change", p1), ("25bps_decrease", p2)],
            recommendation := "STRONG_BUY", confidence := "HIGH" } := by
        unfold ProbabilityStrategy.get_trade_recommendation
        rw [hana, hc]
        simp [defaultProbabilityStrategy, ge_iff_le, h97]
      refine ⟨by simp [hc, h97], ?_, ?_, ?_, ?_, ?_⟩
      · rw [hc]; simp only [Option.isSome_none]
        constructor
        · rintro ⟨-, h⟩; exact absurd h (by simp)
        · rintro ⟨-, h⟩; linarith
      · rw [hc]
        constructor
        · intro h; simp at h
        · intro h; linarith
      · rw [hrec]; simp [h97]
      · rw [hrec]
        constructor
        · rintro ⟨h, -⟩; exact absurd h (by simp)
        · rintro ⟨-, h⟩; linarith
      · rw [hrec]
        constructor
        · rintro ⟨h, -⟩; exact absurd h (by simp)
        · intro h; linarith
    · by_cases h90 : 90 ≤ p1 + p2
      · have hc : defaultProbabilityStrategy.check_probability p1 p2 =
            (true, some "Total probability below safe threshold, proceed with caution") := by
          rw [hcheck, if_neg h97, if_pos h90]
        have hrec : defaultProbabilityStrategy.get_trade_recommendation
            [("no_change", p1), ("25bps_decrease", p2)] =
            { analysis := defaultProbabilityStrategy.analyze_market_probabilities
                [("no_change", p1), ("25bps_decrease", p2)],
              recommendation := "CAUTIOUS_BUY", confidence := "MEDIUM" } := by
          unfold ProbabilityStrategy.get_trade_recommendation
          rw [hana, hc]
          simp [defaultProbabilityStrategy, ge_iff_le, h97]
        refine ⟨?_, ?_, ?_, ?_, ?_, ?_⟩
        · rw [hc]
          constructor
          · intro h
            have := congrArg Prod.snd h
            simp at this
          · intro h; exact absurd h h97
        · rw [hc]; simp [h90, lt_of_not_le h97]
        · rw [hc]
          constructor
          · intro h; simp at h
          · intro h; linarith
        · rw [hrec]
          constructor
          · rintro ⟨h, -⟩; exact absurd h (by simp)
          · intro h; exact absurd h h97
        · rw [hrec]; simp [h90, lt_of_not_le h97]
        · rw [hrec]
          constructor
          · rintro ⟨h, -⟩; exact absurd h (by simp)
          · intro h; linarith
      · have hc : defaultProbabilityStrategy.check_probability p1 p2 =
            (false, some "Total probability below minimum threshold, requires business judgment") := by
          rw [hcheck, if_neg h97, if_neg h90]
        have hrec : defaultProbabilityStrategy.get_trade_recommendation
            [("no_change", p1), ("25bps_decrease", p2)] =
            { analysis := defaultProbabilityStrategy.analyze_market_probabilities
                [("no_change", p1), ("25bps_decrease", p2)],
              recommendation := "HOLD", confidence := "LOW" } := by
          unfold ProbabilityStrategy.get_trade_recommendation
          rw [hana, hc]
          simp [defaultProbabilityStrategy]
        refine ⟨?_, ?_, ?_, ?_, ?_, ?_⟩
        · rw [hc]
          constructor
          · intro h
            have := congrArg Prod.fst h
            simp at this
          · intro h; exact absurd h h97
        · rw [hc]
          constructor
          · rintro ⟨h, -⟩; simp at h
          · rintro ⟨h, -⟩; exact absurd h h90
        · rw [hc]; simp [lt_of_not_le h90]
        · rw [hrec]
          constructor
          · rintro ⟨h, -⟩; exact absurd h (by simp)
          · intro h; exact absurd h h97
        · rw [hrec]
          constructor
          · rintro ⟨h, -⟩; exact absurd h (by simp)
          · rintro ⟨h, -⟩; exact absurd h h90
        · rw [hrec]; simp [lt_of_not_le h90]

/-- Witness for C2 at the spec's concrete case p1 = 60, p2 = 38 (total 98):
eligible with no warning and STRONG_BUY/HIGH. -/
theorem probability_strategy_default_thresholds_witness :
    defaultProbabilityStrategy.check_probability 60 38 = (true, none) ∧
    (defaultProbabilityStrategy.get_trade_recommendation
      [("no_change", (60 : ℚ)), ("25bps_decrease", (38 : ℚ))]).recommendation =
      "STRONG_BUY" := by
  have h := (probability_strategy_default_thresholds 60 38).2
    (by norm_num) (by norm_num) (by norm_num) (by norm_num)
  exact ⟨h.1.mpr (by norm_num), (h.2.2.2.1.mpr (by norm_num)).1⟩

/-- Claim C7: constructing a ProbabilityStrategy with explicit thresholds
succeeds, storing both thresholds unchanged, exactly when
min_total_probability ≤ safe_total_probability with both in [0,100];
otherwise construction raises. -/
theorem probability_strategy_construction (minP safeP : ℚ) :
    (ProbabilityStrategy.make minP safeP =
      .ok { min_total_probability := minP, safe_total_probability := safeP } ↔
      (minP ≤ safeP ∧ 0 ≤ minP ∧ minP ≤ 100 ∧ 0 ≤ safeP ∧ safeP ≤ 100)) ∧
    (¬ (minP ≤ safeP ∧ 0 ≤ minP ∧ minP ≤ 100 ∧ 0 ≤ safeP ∧ safeP ≤ 100) →
      ∃ e, ProbabilityStrategy.make minP safeP = .error e) := by
  unfold ProbabilityStrategy.make
  split_ifs with h1 h2
  · constructor
    · constructor
      · intro h; exact absurd h (by simp)
      · rintro ⟨hle, hmin0, -, -, hsafe100⟩
        rcases h1 with h | h
        · exact absurd hmin0 (not_le.mpr h)
        · exact absurd hsafe100 (not_le.mpr h)
    · intro _; exact ⟨_, rfl⟩
  · constructor
    · constructor
      · intro h; exact absurd h (by simp)
      · rintro ⟨hle, -⟩; exact absurd hle (not_le.mpr h2)
    · intro _; exact ⟨_, rfl⟩
  · push_neg at h1 h2
    constructor
    · constructor
      · intro _
        refine ⟨h2, h1.1, le_trans h2 h1.2, le_trans h1.1 h2, h1.2⟩
      · intro _; rfl
    · intro h
      exact absurd ⟨h2, h1.1, le_trans h2 h1.2, le_trans h1.1 h2, h1.2⟩ h

/-- Witness for C7: thresholds (90, 97) are accepted and stored unchanged,
and the swapped pair (97, 90) is rejected. -/
theorem probability_strategy_construction_witness :
    ProbabilityStrategy.make 90 97 =
      .ok { min_total_probability := 90, safe_total_probability := 97 } ∧
    ∃ e, ProbabilityStrategy.make 97 90 = .error e := by
  refine ⟨(probability_strategy_construction 90 97).1.mpr (by norm_num), ?_⟩
  exact (probability_strategy_construction 97 90).2 (by norm_num)

/-- Claim C6: a LargeOrderMonitor's threshold is strictly positive after
construction and after every set_threshold call: constructing with a
non-positive threshold fails, set_threshold with a non-positive value
returns false leaving the state untouched, set_threshold with a positive
value returns true and stores it, and positivity is preserved. -/
theorem large_order_monitor_threshold_invariant (t v : ℚ) (mm : ℕ)
    (m : LargeOrderMonitor) :
    (∀ m0, LargeOrderMonitor.make t mm = .ok m0 →
      0 < m0.threshold ∧ m0.threshold = t) ∧
    (t ≤ 0 → ∃ e, LargeOrderMonitor.make t mm = .error e) ∧
    (v ≤ 0 → m.set_threshold v = (false, m)) ∧
    (0 < v → (m.set_threshold v).1 = true ∧ ((m.set_threshold v).2).threshold = v) ∧
    (0 < m.threshold → 0 < ((m.set_threshold v).2).threshold) := by
  refine ⟨?_, ?_, ?_, ?_, ?_⟩
  · intro m0 h
    by_cases ht : t ≤ 0
    · rw [LargeOrderMonitor.make, if_pos ht] at h
      cases h
    · rw [LargeOrderMonitor.make, if_neg ht] at h
      push_neg at ht
      simp only [Except.ok.injEq] at h
      rw [← h]
      exact ⟨ht, rfl⟩
  · intro ht
    rw [LargeOrderMonitor.make, if_pos ht]
    exact ⟨_, rfl⟩
  · intro hv
    rw [LargeOrderMonitor.set_threshold, if_pos hv]
  · intro hv
    rw [LargeOrderMonitor.set_threshold, if_neg (not_le.mpr hv)]
    exact ⟨rfl, rfl⟩
  · intro hm
    rw [LargeOrderMonitor.set_threshold]
    split_ifs with hv
    · exact hm
    · push_neg at hv
      exact hv

/-- Witness for C6 at threshold 100 and update value -1: construction
succeeds storing 100, and the non-positive update is rejected in place. -/
theorem large_order_monitor_threshold_invariant_witness :
    (∀ m0, LargeOrderMonitor.make 100 1000 = .ok m0 → 0 < m0.threshold) ∧
    defaultLargeOrderMonitor.set_threshold (-1) = (false, defaultLargeOrderMonitor) := by
  constructor
  · intro m0 h
    exact ((large_order_monitor_threshold_invariant 100 (-1) 1000
      defaultLargeOrderMonitor).1 m0 h).1
  · exact (large_order_monitor_threshold_invariant 100 (-1) 1000
      defaultLargeOrderMonitor).2.2.1 (by norm_num)

/-- Counterexample to C5: for an instrument whose quote asset is USDT and an
account holding 1000 USDT against a cost-50 order, the claimed quote-asset
balance check passes, yet the source's balance check fails (it consults the
hardcoded "USDC" balance, 0 here) and check_order rejects even though every
other check passes. -/
theorem balance_check_quote_asset_counterexample :
    claimed_quote_asset_balance_check usdtAccount usdtOrder = true ∧
    RiskManager.check_balance usdtAccount usdtOrder = false ∧
    (RiskManager.check_order (RiskManager.init 0) usdtAccount usdtOrder
      { date := 0, ts := 0 }).1 = false ∧
    RiskManager.check_order_size (RiskManager.init 0) usdtOrder = true ∧
    RiskManager.check_daily_limit (RiskManager.init 0) usdtOrder = true ∧
    RiskManager.check_market_exposure (RiskManager.init 0) usdtOrder = true ∧
    RiskManager.check_trade_frequency (RiskManager.init 0) { date := 0, ts := 0 } = true ∧
    RiskManager.check_position_size (RiskManager.init 0) usdtAccount = true := by
  norm_num [claimed_quote_asset_balance_check, RiskManager.check_balance,
    RiskManager.check_order, RiskManager.check_order_size,
    RiskManager.check_daily_limit, RiskManager.check_market_exposure,
    RiskManager.check_trade_frequency, RiskManager.check_price_deviation,
    RiskManager.check_position_size, RiskManager.reset_daily_limit,
    RiskManager.init, defaultRiskConfig, usdtAccount, usdtOrder, usdtInstrument,
    priceOr1, List.lookup, show (("USDT" == "USDT") = true) from rfl,
    show (("USDC" == "USDT") = false) from rfl]

/-- Claim C5 as amended: the balance consulted by check_order's first check
is always the account's "USDC" balance, regardless of the instrument's quote
asset — an insufficient USDC balance forces rejection, a passing check_order
implies a sufficient USDC balance, and the verdict is invariant under
arbitrary changes of the order's quote asset. -/
theorem risk_balance_check_consults_usdc (st : RiskState) (a : AccountInfo)
    (o : Order) (now : Time) (qa : String) :
    ((a.balances.lookup "USDC").getD 0 < o.quantity * priceOr1 o.price →
      (RiskManager.check_order st a o now).1 = false) ∧
    ((RiskManager.check_order st a o now).1 = true →
      o.quantity * priceOr1 o.price ≤ (a.balances.lookup "USDC").getD 0) ∧
    (RiskManager.check_order st a
      { o with instrument := { o.instrument with quote_asset := qa } } now =
      RiskManager.check_order st a o now) := by
  refine ⟨?_, ?_, rfl⟩
  · intro h
    have hb : RiskManager.check_balance a o = false := by
      unfold RiskManager.check_balance
      simpa using h
    unfold RiskManager.check_order
    rw [hb]
    rfl
  · intro h
    unfold RiskManager.check_order at h
    simp only [Bool.and_eq_true] at h
    have hb := h.1.1.1.1.1.1
    unfold RiskManager.check_balance at hb
    simpa using hb

/-- Witness for C5's amended theorem at the concrete counterexample data:
the USDC balance (0) is below the cost (50), so check_order rejects, and the
verdict is unchanged when the quote asset is rewritten to "XYZ". -/
theorem risk_balance_check_consults_usdc_witness :
    (RiskManager.check_order (RiskManager.init 0) usdtAccount usdtOrder
      { date := 0, ts := 0 }).1 = false ∧
    RiskManager.check_order (RiskManager.init 0) usdtAccount
      { usdtOrder with instrument := { usdtInstrument with quote_asset := "XYZ" } }
      { date := 0, ts := 0 } =
      RiskManager.check_order (RiskManager.init 0) usdtAccount usdtOrder
        { date := 0, ts := 0 } := by
  refine ⟨(risk_balance_check_consults_usdc (RiskManager.init 0) usdtAccount
    usdtOrder { date := 0, ts := 0 } "XYZ").1 (by
      norm_num [usdtAccount, usdtOrder, usdtInstrument, priceOr1, List.lookup,
        show (("USDC" == "USDT") = false) from rfl]), ?_⟩
  exact (risk_balance_check_consults_usdc (RiskManager.init 0) usdtAccount
    usdtOrder { date := 0, ts := 0 } "XYZ").2.2

/-- Helper: resetting the daily limit twice at the same instant is the same
as resetting once. -/
theorem reset_daily_limit_idem (st : RiskState) (now : Time) :
    RiskManager.reset_daily_limit (RiskManager.reset_daily_limit st now) now =
    RiskManager.reset_daily_limit st now := by
  unfold RiskManager.reset_daily_limit
  split_ifs <;> simp_all

/-- Counterexample to C9: check_order is not free of side effects — called
on day 1 on a state last reset on day 0, it zeroes the daily trade
accumulator (5 becomes 0) and advances the last reset date. -/
theorem check_order_mutates_on_day_rollover :
    ((RiskManager.check_order rolloverRiskState usdtAccount usdtOrder
      { date := 1, ts := 86400 }).2).daily_trade_amount = 0 ∧
    rolloverRiskState.daily_trade_amount = 5 ∧
    ((RiskManager.check_order rolloverRiskState usdtAccount usdtOrder
      { date := 1, ts := 86400 }).2).last_reset_date = 1 ∧
    rolloverRiskState.last_reset_date = 0 := by
  decide

/-- Claim C9 as amended: check_order never touches the trade history, the
market exposure map or the config; the daily accumulator and last reset date
are unchanged whenever no calendar-day boundary was crossed (and in general
change only by the once-per-day reset); and an immediately repeated call with
identical inputs and clock returns the same verdict and state (idempotent
read). -/
theorem check_order_read_only_up_to_daily_reset (st : RiskState)
    (a : AccountInfo) (o : Order) (now : Time) :
    ((RiskManager.check_order st a o now).2).trade_history = st.trade_history ∧
    ((RiskManager.check_order st a o now).2).market_exposure = st.market_exposure ∧
    ((RiskManager.check_order st a o now).2).config = st.config ∧
    (RiskManager.check_order st a o now).2 = RiskManager.reset_daily_limit st now ∧
    (now.date = st.last_reset_date → (RiskManager.check_order st a o now).2 = st) ∧
    RiskManager.check_order ((RiskManager.check_order st a o now).2) a o now =
      RiskManager.check_order st a o now := by
  refine ⟨?_, ?_, ?_, rfl, ?_, ?_⟩
  · unfold RiskManager.check_order RiskManager.reset_daily_limit
    split_ifs <;> rfl
  · unfold RiskManager.check_order RiskManager.reset_daily_limit
    split_ifs <;> rfl
  · unfold RiskManager.check_order RiskManager.reset_daily_limit
    split_ifs <;> rfl
  · intro h
    unfold RiskManager.check_order RiskManager.reset_daily_limit
    rw [if_neg (by simpa using h)]
  · show RiskManager.check_order (RiskManager.reset_daily_limit st now) a o now = _
    unfold RiskManager.check_order
    rw [reset_daily_limit_idem]

/-- Witness for C9's amended theorem: on the rollover state itself the
repeated call agrees with the first, and with an unchanged date the state
comes back untouched. -/
theorem check_order_read_only_up_to_daily_reset_witness :
    RiskManager.check_order
      ((RiskManager.check_order rolloverRiskState usdtAccount usdtOrder
        { date := 1, ts := 86400 }).2) usdtAccount usdtOrder
        { date := 1, ts := 86400 } =
      RiskManager.check_order rolloverRiskState usdtAccount usdtOrder
        { date := 1, ts := 86400 } ∧
    (RiskManager.check_order rolloverRiskState usdtAccount usdtOrder
      { date := 0, ts := 10 }).2 = rolloverRiskState := by
  constructor
  · exact (check_order_read_only_up_to_daily_reset rolloverRiskState usdtAccount
      usdtOrder { date := 1, ts := 86400 }).2.2.2.2.2
  · exact (check_order_read_only_up_to_daily_reset rolloverRiskState usdtAccount
      usdtOrder { date := 0, ts := 10 }).2.2.2.2.1 rfl

/-- Helper: the daily reset never touches the trade history. -/
theorem reset_daily_limit_trade_history (st : RiskState) (now : Time) :
    (RiskManager.reset_daily_limit st now).trade_history = st.trade_history := by
  unfold RiskManager.reset_daily_limit
  split_ifs <;> rfl

/-- Helper: the daily reset never touches the market exposure map. -/
theorem reset_daily_limit_market_exposure (st : RiskState) (now : Time) :
    (RiskManager.reset_daily_limit st now).market_exposure = st.market_exposure := by
  unfold RiskManager.reset_daily_limit
  split_ifs <;> rfl

/-- Helper: a passing structural validation implies the order's gateway is
present in the adapter map. -/
theorem validate_order_valid_gateway {L : Type} (env : ExecutionEnv L)
    (order : Order) (h : (validate_order env order).valid = true) :
    (env.gateways.lookup order.instrument.gateway_name).isSome = true := by
  unfold validate_order at h
  by_cases h1 : order.order_id = ""
  · rw [if_pos h1] at h
    simp at h
  · rw [if_neg h1] at h
    by_cases h2 : order.quantity ≤ 0
    · rw [if_pos h2] at h
      simp at h
    · rw [if_neg h2] at h
      by_cases h3 : (env.gateways.lookup order.instrument.gateway_name).isNone = true
      · rw [if_pos h3] at h
        simp at h
      · rcases hl : env.gateways.lookup order.instrument.gateway_name with _ | g
        · rw [hl] at h3
          exact absurd rfl h3
        · rfl

/-- Helper frame lemma for the pipeline tail: whenever the result status is
`rejected` (and the gateway is present, as validation guarantees), the only
state change is the risk manager's once-per-day reset performed inside
check_order; and whenever the status is not `submitted`, the order history is
untouched and the risk state changed at most by that reset. -/
theorem after_probability_frame {L : Type} (env : ExecutionEnv L)
    (st : EngineState L) (order : Order) (steps2 : List Step) (now : Time) :
    ((submit_order_after_probability env st order steps2 now).2.2.status = "rejected" →
      (env.gateways.lookup order.instrument.gateway_name).isSome = true →
      (submit_order_after_probability env st order steps2 now).1.risk =
        RiskManager.reset_daily_limit st.risk now ∧
      (submit_order_after_probability env st order steps2 now).1.liq = st.liq ∧
      (submit_order_after_probability env st order steps2 now).1.monitor = st.monitor ∧
      (submit_order_after_probability env st order steps2 now).1.order_history =
        st.order_history) ∧
    ((submit_order_after_probability env st order steps2 now).2.2.status ≠ "submitted" →
      (submit_order_after_probability env st order steps2 now).1.order_history =
        st.order_history ∧
      ((submit_order_after_probability env st order steps2 now).1.risk = st.risk ∨
        (submit_order_after_probability env st order steps2 now).1.risk =
          RiskManager.reset_daily_limit st.risk now)) := by
  unfold submit_order_after_probability
  split
  · dsimp only
    exact ⟨fun hs => absurd hs (by decide), fun _ => ⟨rfl, Or.inl rfl⟩⟩
  · dsimp only
    split
    · exact ⟨fun _ _ => ⟨rfl, rfl, rfl, rfl⟩, fun _ => ⟨rfl, Or.inr rfl⟩⟩
    · split
      · dsimp only
        rename_i hgw
        exact ⟨fun _ hsome => (by rw [hgw] at hsome; simp at hsome),
          fun _ => ⟨rfl, Or.inr rfl⟩⟩
      · split
        · dsimp only
          exact ⟨fun hs => absurd hs (by decide), fun _ => ⟨rfl, Or.inr rfl⟩⟩
        · dsimp only
          exact ⟨fun hs => absurd hs (by decide), fun hns => absurd rfl hns⟩

/-- Helper frame lemma at the submit_order level: a rejected submission
leaves the liquidity state, the monitor and the order history untouched and
changes the risk state at most by the daily reset; a non-submitted
submission leaves the order history untouched and the risk state changed at
most by the daily reset. -/
theorem submit_order_frame {L : Type} (env : ExecutionEnv L) (st : EngineState L)
    (order : Order) (mp : Option (List (String × ℚ))) (now : Time) :
    ((submit_order env st order mp now).2.2.status = "rejected" →
      ((submit_order env st order mp now).1.risk = st.risk ∨
        (submit_order env st order mp now).1.risk =
          RiskManager.reset_daily_limit st.risk now) ∧
      (submit_order env st order mp now).1.liq = st.liq ∧
      (submit_order env st order mp now).1.monitor = st.monitor ∧
      (submit_order env st order mp now).1.order_history = st.order_history) ∧
    ((submit_order env st order mp now).2.2.status ≠ "submitted" →
      (submit_order env st order mp now).1.order_history = st.order_history ∧
      ((submit_order env st order mp now).1.risk = st.risk ∨
        (submit_order env st order mp now).1.risk =
          RiskManager.reset_daily_limit st.risk now)) := by
  unfold submit_order
  dsimp only
  split
  · exact ⟨fun _ => ⟨Or.inl rfl, rfl, rfl, rfl⟩, fun _ => ⟨rfl, Or.inl rfl⟩⟩
  · rename_i hval
    have hv : (validate_order env order).valid = true := not_not.mp hval
    have hgw := validate_order_valid_gateway env order hv
    split
    · split
      · exact ⟨fun _ => ⟨Or.inl rfl, rfl, rfl, rfl⟩, fun _ => ⟨rfl, Or.inl rfl⟩⟩
      · refine ⟨fun hs => ?_, fun hns => ?_⟩
        · obtain ⟨h1, h2, h3, h4⟩ := (after_probability_frame env st order _ now).1 hs hgw
          exact ⟨Or.inr h1, h2, h3, h4⟩
        · exact (after_probability_frame env st order _ now).2 hns
    · refine ⟨fun hs => ?_, fun hns => ?_⟩
      · obtain ⟨h1, h2, h3, h4⟩ := (after_probability_frame env st order _ now).1 hs hgw
        exact ⟨Or.inr h1, h2, h3, h4⟩
      · exact (after_probability_frame env st order _ now).2 hns

/-- Claim C10 as amended: whenever submit_order returns status `rejected`,
RiskManager.record_trade was not invoked — the trade ledger and the market
exposure map are unchanged, and the risk state changed at most by the
once-per-day reset that check_order itself performs — no liquidity state
change happens, the large-order monitor is untouched, and nothing is
appended to the order-history ring; moreover the order history and the trade
ledger change only when the venue dispatch succeeded (status `submitted`). -/
theorem submit_order_rejection_atomicity {L : Type} (env : ExecutionEnv L)
    (st : EngineState L) (order : Order) (mp : Option (List (String × ℚ)))
    (now : Time) :
    ((submit_order env st order mp now).2.2.status = "rejected" →
      ((submit_order env st order mp now).1.risk = st.risk ∨
        (submit_order env st order mp now).1.risk =
          RiskManager.reset_daily_limit st.risk now) ∧
      (submit_order env st order mp now).1.risk.trade_history =
        st.risk.trade_history ∧
      (submit_order env st order mp now).1.risk.market_exposure =
        st.risk.market_exposure ∧
      (submit_order env st order mp now).1.liq = st.liq ∧
      (submit_order env st order mp now).1.monitor = st.monitor ∧
      (submit_order env st order mp now).1.order_history = st.order_history) ∧
    ((submit_order env st order mp now).1.order_history ≠ st.order_history →
      (submit_order env st order mp now).2.2.status = "submitted") ∧
    ((submit_order env st order mp now).1.risk.trade_history ≠
        st.risk.trade_history →
      (submit_order env st order mp now).2.2.status = "submitted") := by
  obtain ⟨k1, k2⟩ := submit_order_frame env st order mp now
  refine ⟨fun hs => ?_, fun hne => ?_, fun hne => ?_⟩
  · obtain ⟨hr, hliq, hmon, hh⟩ := k1 hs
    refine ⟨hr, ?_, ?_, hliq, hmon, hh⟩
    · rcases hr with h | h
      · rw [h]
      · rw [h]
        exact reset_daily_limit_trade_history st.risk now
    · rcases hr with h | h
      · rw [h]
      · rw [h]
        exact reset_daily_limit_market_exposure st.risk now
  · by_contra hns
    exact hne (k2 hns).1
  · by_contra hns
    obtain ⟨-, hr⟩ := k2 hns
    rcases hr with h | h
    · exact hne (by rw [h])
    · refine hne ?_
      rw [h]
      exact reset_daily_limit_trade_history st.risk now

/-- Counterexample to C10 as stated: an order rejected by the risk check on
a day boundary does leave a state change behind — the daily trade
accumulator is zeroed (5 becomes 0) by the reset check_order performs — so
"no engine state is updated" with "daily accumulator unchanged" does not
hold verbatim. -/
theorem submit_order_rejected_daily_reset_counterexample :
    (submit_order poorEnv rolloverEngineState usdtOrder none
      { date := 1, ts := 86400 }).2.2.status = "rejected" ∧
    (submit_order poorEnv rolloverEngineState usdtOrder none
      { date := 1, ts := 86400 }).1.risk.daily_trade_amount = 0 ∧
    rolloverEngineState.risk.daily_trade_amount = 5 := by
  norm_num [submit_order, submit_order_after_probability, validate_order,
    probability_gate, RiskManager.check_order, RiskManager.reset_daily_limit,
    RiskManager.check_balance, poorEnv, rolloverEngineState, usdtOrder,
    usdtInstrument, usdtAccount, okGateway, rolloverRiskState, priceOr1,
    List.lookup, Option.bind, show (("binance" == "binance") = true) from rfl,
    show (("acct1" == "acct1") = true) from rfl,
    show (("USDC" == "USDT") = false) from rfl,
    show ¬ ("o1" = "") from by decide]

/-- Witness for C10's amended theorem at a structurally rejected order: the
order history and monitor come back untouched. -/
theorem submit_order_rejection_atomicity_witness :
    (submit_order okEnv freshEngineState malformedOrder none
      { date := 0, ts := 0 }).1.order_history = freshEngineState.order_history ∧
    (submit_order okEnv freshEngineState malformedOrder none
      { date := 0, ts := 0 }).1.monitor = freshEngineState.monitor := by
  have hs : (submit_order okEnv freshEngineState malformedOrder none
      { date := 0, ts := 0 }).2.2.status = "rejected" := by
    norm_num [submit_order, validate_order, malformedOrder, usdtInstrument,
      okEnv, List.lookup, show ¬ ("bad" = "") from by decide]
  obtain ⟨-, -, -, -, hmon, hh⟩ := (submit_order_rejection_atomicity okEnv
    freshEngineState malformedOrder none { date := 0, ts := 0 }).1 hs
  exact ⟨hh, hmon⟩

/-- Helper: the state component returned by check_order is exactly the
daily-reset state. -/
theorem check_order_snd (st : RiskState) (a : AccountInfo) (o : Order)
    (now : Time) :
    (RiskManager.check_order st a o now).2 = RiskManager.reset_daily_limit st now := rfl

/-- Helper: when the pipeline tail reaches a gateway whose send_order
raises, the result status is `error`, the order object is marked `rejected`,
the exception message is captured in the message and the step list, and
neither the order history nor the trade ledger is touched. -/
theorem after_probability_adapter_error {L : Type} (env : ExecutionEnv L)
    (st : EngineState L) (order : Order) (steps2 : List Step) (now : Time)
    (account : AccountInfo) (g : Order → Except String String) (e : String)
    (hacct : order.account_id.bind (fun a => env.accounts.lookup a) = some account)
    (hrisk : (RiskManager.check_order st.risk account order now).1 = true)
    (hgw : env.gateways.lookup order.instrument.gateway_name = some g)
    (hfail : g order = Except.error e) :
    (submit_order_after_probability env st order steps2 now).2.2.status = "error" ∧
    (submit_order_after_probability env st order steps2 now).2.1.status = "rejected" ∧
    (submit_order_after_probability env st order steps2 now).2.2.message =
      "意外错误: " ++ e ∧
    mkStepMsg "execution" "error" e ∈
      (submit_order_after_probability env st order steps2 now).2.2.steps ∧
    (submit_order_after_probability env st order steps2 now).1.order_history =
      st.order_history ∧
    (submit_order_after_probability env st order steps2 now).1.risk.trade_history =
      st.risk.trade_history := by
  unfold submit_order_after_probability
  simp [hacct, hrisk, hgw, hfail, check_order_snd, reset_daily_limit_trade_history]

/-- Claim C1 as amended: for every order the pipeline carries to dispatch
whose venue adapter raises, the returned result has status `error` while the
order object's status is set to `rejected` (not `error`), the exception
message is captured in the result's message and step list, and the order is
NOT appended to the order history. -/
theorem submit_order_adapter_error_behavior {L : Type} (env : ExecutionEnv L)
    (st : EngineState L) (order : Order) (mp : Option (List (String × ℚ)))
    (now : Time) (account : AccountInfo) (g : Order → Except String String)
    (e : String)
    (hv : (validate_order env order).valid = true)
    (hp : ∀ pa, probability_gate env.probability_strategy mp = some pa →
      pa.can_trade = true)
    (hacct : order.account_id.bind (fun a => env.accounts.lookup a) = some account)
    (hrisk : (RiskManager.check_order st.risk account order now).1 = true)
    (hgw : env.gateways.lookup order.instrument.gateway_name = some g)
    (hfail : g order = Except.error e) :
    (submit_order env st order mp now).2.2.status = "error" ∧
    (submit_order env st order mp now).2.1.status = "rejected" ∧
    (submit_order env st order mp now).2.2.message = "意外错误: " ++ e ∧
    mkStepMsg "execution" "error" e ∈ (submit_order env st order mp now).2.2.steps ∧
    (submit_order env st order mp now).1.order_history = st.order_history := by
  unfold submit_order
  dsimp only
  rw [if_neg (by simp [hv])]
  rcases hg : probability_gate env.probability_strategy mp with _ | pa
  · simp only [hg]
    have h := after_probability_adapter_error env st order
      [mkStep "validation" "success"] now account g e hacct hrisk hgw hfail
    exact ⟨h.1, h.2.1, h.2.2.1, h.2.2.2.1, h.2.2.2.2.1⟩
  · have hcan := hp pa hg
    simp only [hg]
    rw [if_neg (by simp [hcan])]
    have h := after_probability_adapter_error env st order
      ([mkStep "validation" "success"] ++
        (match pa.message with
         | some msg => [mkStepMsg "probability_check" "warning" msg]
         | none => [mkStep "probability_check" "success"])) now account g e
      hacct hrisk hgw hfail
    exact ⟨h.1, h.2.1, h.2.2.1, h.2.2.2.1, h.2.2.2.2.1⟩

/-- Helper: the rich test account passes the risk check for the small test
order on a fresh day-0 risk manager. -/
theorem rich_risk_check_passes :
    (RiskManager.check_order (RiskManager.init 0) richAccount usdtOrder
      { date := 0, ts := 0 }).1 = true := by
  norm_num [RiskManager.check_order, RiskManager.reset_daily_limit,
    RiskManager.check_balance, RiskManager.check_order_size,
    RiskManager.check_daily_limit, RiskManager.check_market_exposure,
    RiskManager.check_trade_frequency, RiskManager.check_price_deviation,
    RiskManager.check_position_size, RiskManager.init, defaultRiskConfig,
    richAccount, usdtOrder, usdtInstrument, priceOr1, List.lookup,
    show (("USDC" == "USDC") = true) from rfl]

/-- Counterexample to C1 as stated: with an adapter that raises on dispatch,
the order object's status is `rejected`, not `error` (only the result dict
carries `error`), and the order history stays empty — the order is not
appended. -/
theorem submit_order_adapter_exception_counterexample :
    (submit_order c1Env freshEngineState usdtOrder none
      { date := 0, ts := 0 }).2.1.status = "rejected" ∧
    ¬ (submit_order c1Env freshEngineState usdtOrder none
      { date := 0, ts := 0 }).2.1.status = "error" ∧
    (submit_order c1Env freshEngineState usdtOrder none
      { date := 0, ts := 0 }).1.order_history = [] ∧
    (submit_order c1Env freshEngineState usdtOrder none
      { date := 0, ts := 0 }).2.2.status = "error" := by
  have heq : submit_order c1Env freshEngineState usdtOrder none
      { date := 0, ts := 0 } =
      submit_order_after_probability c1Env freshEngineState usdtOrder
        [mkStep "validation" "success"] { date := 0, ts := 0 } := by
    unfold submit_order
    dsimp only
    rw [if_neg (by norm_num [validate_order, c1Env, usdtOrder, usdtInstrument,
      List.lookup, show (("binance" == "binance") = true) from rfl,
      show ¬ ("o1" = "") from by decide])]
    rfl
  have h := after_probability_adapter_error c1Env freshEngineState usdtOrder
    [mkStep "validation" "success"] { date := 0, ts := 0 } richAccount
    errGateway "boom" rfl rich_risk_check_passes rfl rfl
  rw [heq]
  exact ⟨h.2.1, by rw [h.2.1]; decide, h.2.2.2.2.1, h.1⟩

/-- Witness for C1's amended theorem at the concrete raising adapter: the
result is `error` with the exception text captured, the order object is
`rejected`, and the history is unchanged. -/
theorem submit_order_adapter_error_behavior_witness :
    (submit_order c1Env freshEngineState usdtOrder none
      { date := 0, ts := 0 }).2.2.status = "error" ∧
    (submit_order c1Env freshEngineState usdtOrder none
      { date := 0, ts := 0 }).2.2.message = "意外错误: " ++ "boom" ∧
    mkStepMsg "execution" "error" "boom" ∈
      (submit_order c1Env freshEngineState usdtOrder none
        { date := 0, ts := 0 }).2.2.steps ∧
    (submit_order c1Env freshEngineState usdtOrder none
      { date := 0, ts := 0 }).1.order_history = freshEngineState.order_history := by
  have h := submit_order_adapter_error_behavior c1Env freshEngineState usdtOrder
    none { date := 0, ts := 0 } richAccount errGateway "boom"
    (by norm_num [validate_order, c1Env, usdtOrder, usdtInstrument, List.lookup,
      show (("binance" == "binance") = true) from rfl,
      show ¬ ("o1" = "") from by decide])
    (fun pa hpa => by simp [probability_gate] at hpa)
    rfl rich_risk_check_passes rfl rfl
  exact ⟨h.1, h.2.2.1, h.2.2.2.1, h.2.2.2.2⟩

/-- Helper: a structurally invalid order yields the fixed validation-failed
rejection result, independently of the engine state. -/
theorem submit_order_invalid {L : Type} (env : ExecutionEnv L) (st : EngineState L)
    (order : Order) (mp : Option (List (String × ℚ))) (now : Time)
    (h : (validate_order env order).valid = false) :
    (submit_order env st order mp now).2.2 =
      { order_id := order.order_id, status := "rejected",
        message := (validate_order env order).message,
        steps := [mkStepMsg "validation" "failed" (validate_order env order).message],
        gateway_order_id := none } := by
  unfold submit_order
  dsimp only
  rw [if_pos (by simp [h])]

/-- Helper: a quadruple append is an extension of its first component. -/
theorem exists_append_rest {α : Type} (l a b c d : List α) :
    ∃ r, (((l ++ a) ++ b) ++ c) ++ d = l ++ r :=
  ⟨a ++ (b ++ (c ++ d)), by simp⟩

/-- Helper: the pipeline tail only ever appends to the audit trail it was
handed. -/
theorem after_probability_steps_prefix {L : Type} (env : ExecutionEnv L)
    (st : EngineState L) (order : Order) (steps2 : List Step) (now : Time) :
    ∃ rest, (submit_order_after_probability env st order steps2 now).2.2.steps =
      steps2 ++ rest := by
  unfold submit_order_after_probability
  split
  · exact ⟨_, rfl⟩
  · dsimp only
    split
    · exact ⟨_, rfl⟩
    · split
      · exact exists_append_rest steps2 _ _ _ _
      · split
        · exact exists_append_rest steps2 _ _ _ _
        · exact exists_append_rest steps2 _ _ _ _

/-- Helper: a structurally valid order's result trail always starts with the
validation-success step, whatever happens later in the pipeline. -/
theorem submit_order_valid_steps_head {L : Type} (env : ExecutionEnv L)
    (st : EngineState L) (order : Order) (mp : Option (List (String × ℚ)))
    (now : Time) (h : (validate_order env order).valid = true) :
    (submit_order env st order mp now).2.2.steps.head? =
      some (mkStep "validation" "success") := by
  unfold submit_order
  dsimp only
  rw [if_neg (by simp [h])]
  rcases hg : probability_gate env.probability_strategy mp with _ | pa
  · simp only [hg]
    obtain ⟨rest, hr⟩ := after_probability_steps_prefix env st order
      [mkStep "validation" "success"] now
    rw [hr]
    rfl
  · simp only [hg]
    by_cases hc : pa.can_trade = true
    · rw [if_neg (by simp [hc])]
      obtain ⟨rest, hr⟩ := after_probability_steps_prefix env st order
        ([mkStep "validation" "success"] ++
          (match pa.message with
           | some msg => [mkStepMsg "probability_check" "warning" msg]
           | none => [mkStep "probability_check" "success"])) now
      rw [hr]
      rfl
    · rw [if_pos (by simp [hc])]
      rfl

/-- Helper: the batch loop produces exactly one detail per input order. -/
theorem submit_batch_details_length {L : Type} (env : ExecutionEnv L) (now : Time) :
    ∀ (orders : List (Order × Option (List (String × ℚ)))) (st : EngineState L),
      (submit_batch_details env st orders now).2.length = orders.length := by
  intro orders
  induction orders with
  | nil => intro st; rfl
  | cons p rest ih =>
    intro st
    obtain ⟨o, mp⟩ := p
    show ((submit_order env st o mp now).2.2 ::
      (submit_batch_details env (submit_order env st o mp now).1 rest now).2).length =
      rest.length + 1
    rw [List.length_cons, ih]

/-- Helper: every per-order property that holds for the order's submission
result at an arbitrary engine state holds of the corresponding batch
detail. -/
theorem submit_batch_details_elements {L : Type} (env : ExecutionEnv L) (now : Time) :
    ∀ (orders : List (Order × Option (List (String × ℚ))))
      (P : ℕ → SubmitResult → Prop) (st : EngineState L),
      (∀ i (hi : i < orders.length) (st0 : EngineState L),
        P i (submit_order env st0 (orders.get ⟨i, hi⟩).1 (orders.get ⟨i, hi⟩).2 now).2.2) →
      ∀ i (hi : i < (submit_batch_details env st orders now).2.length),
        P i ((submit_batch_details env st orders now).2.get ⟨i, hi⟩) := by
  intro orders
  induction orders with
  | nil =>
    intro P st h i hi
    rw [submit_batch_details_length] at hi
    exact absurd hi (Nat.not_lt_zero i)
  | cons p rest ih =>
    intro P st h i hi
    obtain ⟨o, mp⟩ := p
    have hshape : (submit_batch_details env st ((o, mp) :: rest) now).2 =
        (submit_order env st o mp now).2.2 ::
          (submit_batch_details env (submit_order env st o mp now).1 rest now).2 := rfl
    cases i with
    | zero =>
      have := h 0 (Nat.succ_pos rest.length) st
      simpa [hshape] using this
    | succ j =>
      have hj : j < (submit_batch_details env
          (submit_order env st o mp now).1 rest now).2.length := by
        have := hi
        rw [submit_batch_details_length] at this ⊢
        exact Nat.lt_of_succ_lt_succ this
      have := ih (fun n r => P (n + 1) r) (submit_order env st o mp now).1
        (fun n hn st0 => h (n + 1) (Nat.succ_lt_succ hn) st0) j hj
      simpa [hshape] using this

/-- Helper: the three status counters always account for every detail. -/
theorem countP_status_partition :
    ∀ ds : List SubmitResult,
      ds.countP (fun r => r.status = "submitted") +
        ds.countP (fun r => r.status = "rejected") +
        ds.countP (fun r => r.status ≠ "submitted" ∧ r.status ≠ "rejected") =
        ds.length := by
  intro ds
  induction ds with
  | nil => rfl
  | cons d rest ih =>
    by_cases h1 : d.status = "submitted"
    · by_cases h2 : d.status = "rejected"
      · rw [h1] at h2
        exact absurd h2 (by decide)
      · simp [List.countP_cons, h1, h2] at ih ⊢
        omega
    · by_cases h2 : d.status = "rejected"
      · simp [List.countP_cons, h1, h2] at ih ⊢
        omega
      · simp [List.countP_cons, h1, h2] at ih ⊢
        omega

/-- Claim C3: in a batch where exactly one order is structurally malformed,
the batch result is total (it never raises), has one detail per order with
counters summing to N, reports the malformed order individually as a
validation rejection, and every other order is attempted through the normal
pipeline (its trail begins with the validation-success step). -/
theorem submit_orders_batch_isolates_malformed {L : Type} (env : ExecutionEnv L)
    (st : EngineState L) (orders : List (Order × Option (List (String × ℚ))))
    (now : Time) (k : ℕ) (hk : k < orders.length)
    (hbad : (validate_order env (orders.get ⟨k, hk⟩).1).valid = false)
    (hgood : ∀ i (hi : i < orders.length), i ≠ k →
      (validate_order env (orders.get ⟨i, hi⟩).1).valid = true) :
    (submit_orders_batch env st orders now).2.total = orders.length ∧
    (submit_orders_batch env st orders now).2.details.length = orders.length ∧
    (submit_orders_batch env st orders now).2.submitted +
      (submit_orders_batch env st orders now).2.rejected +
      (submit_orders_batch env st orders now).2.errors = orders.length ∧
    ((submit_orders_batch env st orders now).2.details.getD k
      dummySubmitResult).status = "rejected" ∧
    ((submit_orders_batch env st orders now).2.details.getD k
      dummySubmitResult).order_id = (orders.get ⟨k, hk⟩).1.order_id ∧
    ((submit_orders_batch env st orders now).2.details.getD k
      dummySubmitResult).steps =
      [mkStepMsg "validation" "failed"
        (validate_order env (orders.get ⟨k, hk⟩).1).message] ∧
    (∀ i (hi : i < orders.length), i ≠ k →
      ((submit_orders_batch env st orders now).2.details.getD i
        dummySubmitResult).steps.head? = some (mkStep "validation" "success")) := by
  have hlen : (submit_batch_details env st orders now).2.length = orders.length :=
    submit_batch_details_length env now orders st
  have hdet : (submit_orders_batch env st orders now).2.details =
      (submit_batch_details env st orders now).2 := rfl
  have helts := submit_batch_details_elements env now orders
    (fun i r =>
      (∀ hik : i = k,
        r.status = "rejected" ∧
        r.order_id = (orders.get ⟨k, hk⟩).1.order_id ∧
        r.steps = [mkStepMsg "validation" "failed"
          (validate_order env (orders.get ⟨k, hk⟩).1).message]) ∧
      (i ≠ k → r.steps.head? = some (mkStep "validation" "success")))
    st
    (by
      intro i hi st0
      constructor
      · intro hik
        subst hik
        have := submit_order_invalid env st0 (orders.get ⟨i, hi⟩).1
          (orders.get ⟨i, hi⟩).2 now hbad
        rw [this]
        exact ⟨rfl, rfl, rfl⟩
      · intro hik
        exact submit_order_valid_steps_head env st0 (orders.get ⟨i, hi⟩).1
          (orders.get ⟨i, hi⟩).2 now (hgood i hi hik))
  refine ⟨rfl, by rw [hdet, hlen], ?_, ?_, ?_, ?_, ?_⟩
  · have h := countP_status_partition (submit_batch_details env st orders now).2
    rw [hlen] at h
    exact h
  · have hk' : k < (submit_batch_details env st orders now).2.length := by
      rw [hlen]; exact hk
    have := (helts k hk').1 rfl
    rw [hdet, List.getD_eq_get _ _ hk']
    exact this.1
  · have hk' : k < (submit_batch_details env st orders now).2.length := by
      rw [hlen]; exact hk
    have := (helts k hk').1 rfl
    rw [hdet, List.getD_eq_get _ _ hk']
    exact this.2.1
  · have hk' : k < (submit_batch_details env st orders now).2.length := by
      rw [hlen]; exact hk
    have := (helts k hk').1 rfl
    rw [hdet, List.getD_eq_get _ _ hk']
    exact this.2.2
  · intro i hi hik
    have hi' : i < (submit_batch_details env st orders now).2.length := by
      rw [hlen]; exact hi
    have := (helts i hi').2 hik
    rw [hdet, List.getD_eq_get _ _ hi']
    exact this

/-- Witness for C3 at a concrete two-order batch whose first order is
malformed (zero quantity): both orders get a detail, the counters account
for both, the malformed one is reported as a validation rejection and the
other one entered the pipeline. -/
theorem submit_orders_batch_isolates_malformed_witness :
    (submit_orders_batch okEnv freshEngineState
      [(malformedOrder, none), (usdtOrder, none)] { date := 0, ts := 0 }).2.total = 2 ∧
    ((submit_orders_batch okEnv freshEngineState
      [(malformedOrder, none), (usdtOrder, none)] { date := 0, ts := 0 }).2.details.getD 0
        dummySubmitResult).status = "rejected" ∧
    ((submit_orders_batch okEnv freshEngineState
      [(malformedOrder, none), (usdtOrder, none)] { date := 0, ts := 0 }).2.details.getD 1
        dummySubmitResult).steps.head? = some (mkStep "validation" "success") ∧
    (submit_orders_batch okEnv freshEngineState
      [(malformedOrder, none), (usdtOrder, none)] { date := 0, ts := 0 }).2.submitted +
      (submit_orders_batch okEnv freshEngineState
        [(malformedOrder, none), (usdtOrder, none)] { date := 0, ts := 0 }).2.rejected +
      (submit_orders_batch okEnv freshEngineState
        [(malformedOrder, none), (usdtOrder, none)] { date := 0, ts := 0 }).2.errors = 2 := by
  have h := submit_orders_batch_isolates_malformed okEnv freshEngineState
    [(malformedOrder, none), (usdtOrder, none)] { date := 0, ts := 0 } 0
    (by norm_num)
    (by norm_num [validate_order, malformedOrder, usdtInstrument, okEnv,
      List.lookup, show ¬ ("bad" = "") from by decide])
    (by
      intro i hi hik
      simp only [List.length_cons, List.length_nil] at hi
      have hi1 : i = 1 := by omega
      subst hi1
      norm_num [validate_order, usdtOrder, usdtInstrument, okEnv, List.lookup,
        show (("binance" == "binance") = true) from rfl,
        show ¬ ("o1" = "") from by decide])
  exact ⟨h.1, h.2.2.2.1, h.2.2.2.2.2.2 1 (by norm_num) (by norm_num), h.2.2.1⟩

/-- Helper: the confidence-descending comparator used by the M-choose-N sort
is transitive. -/
theorem confidence_le_trans (a b c : Recommendation) :
    (decide (confidence_level (b.confidence.getD "LOW") 0 ≤
      confidence_level (a.confidence.getD "LOW") 0)) = true →
    (decide (confidence_level (c.confidence.getD "LOW") 0 ≤
      confidence_level (b.confidence.getD "LOW") 0)) = true →
    (decide (confidence_level (c.confidence.getD "LOW") 0 ≤
      confidence_level (a.confidence.getD "LOW") 0)) = true := by
  simp only [decide_eq_true_eq]
  omega

/-- Helper: the confidence-descending comparator is total. -/
theorem confidence_le_total (a b : Recommendation) :
    ((decide (confidence_level (b.confidence.getD "LOW") 0 ≤
        confidence_level (a.confidence.getD "LOW") 0)) ||
      (decide (confidence_level (a.confidence.getD "LOW") 0 ≤
        confidence_level (b.confidence.getD "LOW") 0))) = true := by
  rcases Nat.le_total (confidence_level (b.confidence.getD "LOW") 0)
    (confidence_level (a.confidence.getD "LOW") 0) with h | h
  · simp [h]
  · simp [h]

/-- Helper: the M-choose-N selection never exceeds n entries (for n ≥ 0). -/
theorem m_choose_n_selected_length (cfg : ExecutorConfig)
    (recs : List Recommendation) (n : ℤ) (hn : 0 ≤ n) :
    ((m_choose_n_selected cfg recs n).length : ℤ) ≤ n := by
  unfold m_choose_n_selected
  dsimp only
  split_ifs with h
  · rw [List.length_take, List.length_mergeSort]
    have : min n.toNat (recs.filter (is_valid_recommendation cfg)).length ≤ n.toNat :=
      Nat.min_le_left _ _
    omega
  · push_neg at h
    exact h

/-- Helper: every selected recommendation is valid. -/
theorem m_choose_n_selected_valid (cfg : ExecutorConfig)
    (recs : List Recommendation) (n : ℤ) :
    ∀ r ∈ m_choose_n_selected cfg recs n, is_valid_recommendation cfg r = true := by
  unfold m_choose_n_selected
  dsimp only
  split_ifs with h
  · intro r hr
    have hr' : r ∈ (recs.filter (is_valid_recommendation cfg)).mergeSort
        (fun a b => decide (confidence_level (b.confidence.getD "LOW") 0 ≤
          confidence_level (a.confidence.getD "LOW") 0)) :=
      List.mem_of_mem_take hr
    have hr'' : r ∈ recs.filter (is_valid_recommendation cfg) :=
      (List.mergeSort_perm _ _).mem_iff.mp hr'
    exact List.of_mem_filter hr''
  · intro r hr
    exact List.of_mem_filter hr

/-- Helper: the selection is a highest-confidence-ranked subset of the valid
candidates — the valid set splits (up to permutation) into the selection and
a remainder whose members never exceed any selected member's confidence
tier. -/
theorem m_choose_n_selected_top (cfg : ExecutorConfig)
    (recs : List Recommendation) (n : ℤ) :
    ∃ rest, (recs.filter (is_valid_recommendation cfg)).Perm
      (m_choose_n_selected cfg recs n ++ rest) ∧
      ∀ a ∈ m_choose_n_selected cfg recs n, ∀ b ∈ rest,
        confidence_level (b.confidence.getD "LOW") 0 ≤
          confidence_level (a.confidence.getD "LOW") 0 := by
  unfold m_choose_n_selected
  dsimp only
  split_ifs with h
  · refine ⟨((recs.filter (is_valid_recommendation cfg)).mergeSort
      (fun a b => decide (confidence_level (b.confidence.getD "LOW") 0 ≤
        confidence_level (a.confidence.getD "LOW") 0))).drop n.toNat, ?_, ?_⟩
    · rw [List.take_append_drop]
      exact (List.mergeSort_perm _ _).symm
    · have hp := List.sorted_mergeSort confidence_le_trans confidence_le_total
        (recs.filter (is_valid_recommendation cfg))
      rw [← List.take_append_drop n.toNat ((recs.filter
        (is_valid_recommendation cfg)).mergeSort
        (fun a b => decide (confidence_level (b.confidence.getD "LOW") 0 ≤
          confidence_level (a.confidence.getD "LOW") 0)))] at hp
      intro a ha b hb
      have := (List.pairwise_append.mp hp).2.2 a ha b hb
      exact of_decide_eq_true this
  · exact ⟨[], by simp, by simp⟩

/-- Counterexample to C4 as stated: asking for n = 10 selections on a market
with M = 4 outcomes does NOT return at most 4 selections — the call returns
an input-error result (status `error`), per strategy_executor.py lines
225-230. -/
theorem m_choose_n_over_m_counterexample :
    (execute_m_choose_n_strategy testExecutorConfig okEnv fourOutcomeMarket
      freshEngineState "m1" [] 10 { date := 0, ts := 0 }).2.status = "error" ∧
    (execute_m_choose_n_strategy testExecutorConfig okEnv fourOutcomeMarket
      freshEngineState "m1" [] 10 { date := 0, ts := 0 }).2.selected_count = 0 := by
  norm_num [execute_m_choose_n_strategy, fourOutcomeMarket,
    show ("m1" = "m1") from rfl]

/-- Claim C4 as amended: for a market with M outcomes and 1 ≤ n ≤ M the call
succeeds and returns at most n selections, each valid (non-HOLD, sufficient
confidence, positive size), and forming a highest-confidence-ranked subset
of the valid candidates; but n > M yields an input-error status instead of
capping at M. -/
theorem m_choose_n_selection_correct {L : Type} (cfg : ExecutorConfig)
    (env : ExecutionEnv L) (get_market : String → Option MarketInfo)
    (st : EngineState L) (market_id : String) (recs : List Recommendation)
    (n : ℤ) (now : Time) (mi : MarketInfo)
    (hmi : get_market market_id = some mi)
    (hn1 : 1 ≤ n) (hnm : n ≤ (mi.outcomes.length : ℤ)) :
    (execute_m_choose_n_strategy cfg env get_market st market_id recs n
      now).2.status = "success" ∧
    ((execute_m_choose_n_strategy cfg env get_market st market_id recs n
      now).2.selected_count : ℤ) ≤ n ∧
    (execute_m_choose_n_strategy cfg env get_market st market_id recs n
      now).2.m = mi.outcomes.length ∧
    (execute_m_choose_n_strategy cfg env get_market st market_id recs n
      now).2.selected_outcomes =
      (m_choose_n_selected cfg recs n).map (fun r => r.outcome) ∧
    (∀ r ∈ m_choose_n_selected cfg recs n, is_valid_recommendation cfg r = true) ∧
    (∃ rest, (recs.filter (is_valid_recommendation cfg)).Perm
      (m_choose_n_selected cfg recs n ++ rest) ∧
      ∀ a ∈ m_choose_n_selected cfg recs n, ∀ b ∈ rest,
        confidence_level (b.confidence.getD "LOW") 0 ≤
          confidence_level (a.confidence.getD "LOW") 0) := by
  have hres : execute_m_choose_n_strategy cfg env get_market st market_id recs n now =
      (let selected := m_choose_n_selected cfg recs n
       let orders := (selected.filterMap (fun r => create_order get_market r now)).map
         (fun o => (o, (none : Option (List (String × ℚ)))))
       let st' := if orders.isEmpty then st else (submit_orders_batch env st orders now).1
       (st', { status := "success", message := none, market_id := some market_id,
               m := mi.outcomes.length, n := n, selected_count := selected.length,
               selected_outcomes := selected.map (fun r => r.outcome) })) := by
    unfold execute_m_choose_n_strategy
    rw [hmi]
    dsimp only
    rw [if_neg (not_lt.mpr hnm), if_neg (by omega)]
  rw [hres]
  refine ⟨rfl, ?_, rfl, rfl, m_choose_n_selected_valid cfg recs n,
    m_choose_n_selected_top cfg recs n⟩
  exact m_choose_n_selected_length cfg recs n (by omega)

/-- Witness for C4's amended theorem: on the four-outcome market with n = 2
and three candidate recommendations (one below the confidence floor), the
call succeeds with at most two selections. -/
theorem m_choose_n_selection_correct_witness :
    (execute_m_choose_n_strategy testExecutorConfig okEnv fourOutcomeMarket
      freshEngineState "m1" [mkRec "LOW" "a", mkRec "HIGH" "b", mkRec "MEDIUM" "c"]
      2 { date := 0, ts := 0 }).2.status = "success" ∧
    ((execute_m_choose_n_strategy testExecutorConfig okEnv fourOutcomeMarket
      freshEngineState "m1" [mkRec "LOW" "a", mkRec "HIGH" "b", mkRec "MEDIUM" "c"]
      2 { date := 0, ts := 0 }).2.selected_count : ℤ) ≤ 2 := by
  have h := m_choose_n_selection_correct testExecutorConfig okEnv fourOutcomeMarket
    freshEngineState "m1" [mkRec "LOW" "a", mkRec "HIGH" "b", mkRec "MEDIUM" "c"]
    2 { date := 0, ts := 0 }
    { outcomes := ["a", "b", "c", "d"], question := some "q" }
    (by norm_num [fourOutcomeMarket]) (by norm_num) (by norm_num)
  exact ⟨h.1, h.2.1⟩

/-- Claim C8 evaluated on the code at a concrete failing input (the cpi
event, subscribed and enabled, whose trigger yields one valid BUY/HIGH
signal of size 10). The signal passes the event-signal filter, but
`_create_order_from_event` returns None on every input (its `Order(...)`
construction passes a `timestamp` keyword the Order dataclass does not
define, raising TypeError), so the first call attempts zero orders and sets
no cooldown, and a second call 10 seconds later — well within the 60-second
cooldown period — is processed again rather than skipped with status
"cooldown". -/
theorem handle_event_order_creation_type_error :
    is_valid_event_signal testExecutorConfig
      [("signal", "BUY"), ("confidence", "HIGH"), ("outcome", "a")] 10 = true ∧
    create_order_from_event fourOutcomeMarket (some "m1")
      { date := 0, ts := 1000 } = none ∧
    (handle_event testExecutorConfig okEnv fourOutcomeMarket cpiTrigger
      freshExecutorState "cpi" { date := 0, ts := 1000 }).2.status = "processed" ∧
    (handle_event testExecutorConfig okEnv fourOutcomeMarket cpiTrigger
      freshExecutorState "cpi" { date := 0, ts := 1000 }).2.order_status =
      some "no_orders" ∧
    (handle_event testExecutorConfig okEnv fourOutcomeMarket cpiTrigger
      freshExecutorState "cpi" { date := 0, ts := 1000 }).2.order_count = some 0 ∧
    (handle_event testExecutorConfig okEnv fourOutcomeMarket cpiTrigger
      freshExecutorState "cpi" { date := 0, ts := 1000 }).1.event_cooldowns = [] ∧
    (handle_event testExecutorConfig okEnv fourOutcomeMarket cpiTrigger
      (handle_event testExecutorConfig okEnv fourOutcomeMarket cpiTrigger
        freshExecutorState "cpi" { date := 0, ts := 1000 }).1 "cpi"
      { date := 0, ts := 1010 }).2.status = "processed" ∧
    ¬ (handle_event testExecutorConfig okEnv fourOutcomeMarket cpiTrigger
      (handle_event testExecutorConfig okEnv fourOutcomeMarket cpiTrigger
        freshExecutorState "cpi" { date := 0, ts := 1000 }).1 "cpi"
      { date := 0, ts := 1010 }).2.status = "cooldown" := by
  norm_num [handle_event, build_event_orders, is_in_cooldown,
    is_valid_event_signal, signalGet, create_order_from_event, cpiTrigger,
    testExecutorConfig, fourOutcomeMarket, freshExecutorState, freshEngineState,
    List.lookup,
    show ((["cpi"] : List String).contains "cpi") = true from rfl,
    show (("signal" == "signal") = true) from rfl,
    show (("confidence" == "signal") = false) from rfl,
    show (("confidence" == "confidence") = true) from rfl,
    show ¬ ("BUY" = "HOLD") from by decide,
    show confidence_level "HIGH" 0 = 3 from rfl,
    show confidence_level "MEDIUM" 2 = 2 from rfl,
    show ¬ ("m1" = "") from by decide,
    show ("m1" = "m1") from rfl,
    show ¬ ("processed" = "cooldown") from by decide]

end Trading
